import Mathlib

/-!
Verification of the pointer-linked binary heap of
`src/binary_heap_with_pointers.c` / `.h`, and of the AVL tree interface of
`src/avl-tree.h` (whose implementation file is not part of the sources; the
AVL operations are modelled from the specification where needed).

The heap is a shallow state-passing embedding of the C code.  A heap node
(`binary_heap_node_t`) holds only the three links `left`, `right`, `parent`;
the caller owns the node memory and the key lives outside the node, reached
through the comparison callback.  We model:

* node addresses as natural numbers (`Nat`); a null pointer is `none`;
* the caller's node memory as a function `nodes : Nat → NodeLinks`;
* the comparison callback as the integer-difference comparator over a
  caller-owned key assignment `key : Nat → Int`, exactly as in the
  repository's tests (`int_compare` returns `val1->value - val2->value`);
* the `uint32_t num_entries` counter with its wrap-around modulus `U32`.

Each C function is translated statement by statement; `while` loops become
fuel-indexed recursions (the fuel passed at the call sites is large enough on
every well-formed heap, which is proved where needed).
-/

/-- Number of values of the C type `uint32_t`; `num_entries` wraps at this
modulus. -/
def U32 : Nat := 4294967296

/-- The three pointers of `binary_heap_node_t`: `left`, `right`, `parent`.
`none` is the C null pointer. -/
structure NodeLinks where
  left : Option Nat
  right : Option Nat
  parent : Option Nat
deriving DecidableEq

/-- A zeroed node, all three pointers null. -/
def nullLinks : NodeLinks := ⟨none, none, none⟩

/-- The C enum `binary_heap_type_t` (the sentinel `BINARY_HEAP_NUM` is not a
heap type and is omitted). -/
inductive binary_heap_type_t
  | BINARY_HEAP_MIN
  | BINARY_HEAP_MAX
deriving DecidableEq

/-- The C enum `binary_heap_err_t` (the sentinel `BINARY_HEAP_ERR_NUM` is not
an error code and is omitted). -/
inductive binary_heap_err_t
  | BINARY_HEAP_ERR_OK
  | BINARY_HEAP_ERR_INVAL
  | BINARY_HEAP_ERR_DUP
  | BINARY_HEAP_ERR_NOENT
deriving DecidableEq

open binary_heap_type_t binary_heap_err_t

/-- The struct `binary_heap_t` together with the caller-owned memory the heap
operations touch: the node links (`nodes`) and the keys the comparison
callback reads (`key`). -/
structure binary_heap_t where
  heap_type : binary_heap_type_t
  num_entries : Nat
  key : Nat → Int
  min : Option Nat
  nodes : Nat → NodeLinks

/-- Pointwise update of caller memory (a single store through a pointer). -/
def upd {α : Type} (f : Nat → α) (i : Nat) (v : α) : Nat → α :=
  fun j => if j = i then v else f j

/-- Store a whole node record (the C struct assignment). -/
def setNode (s : binary_heap_t) (i : Nat) (nl : NodeLinks) : binary_heap_t :=
  { s with nodes := upd s.nodes i nl }

/-- Store through a node's `left` field. -/
def setLeft (s : binary_heap_t) (i : Nat) (v : Option Nat) : binary_heap_t :=
  { s with nodes := upd s.nodes i { s.nodes i with left := v } }

/-- Store through a node's `right` field. -/
def setRight (s : binary_heap_t) (i : Nat) (v : Option Nat) : binary_heap_t :=
  { s with nodes := upd s.nodes i { s.nodes i with right := v } }

/-- Store through a node's `parent` field. -/
def setParent (s : binary_heap_t) (i : Nat) (v : Option Nat) : binary_heap_t :=
  { s with nodes := upd s.nodes i { s.nodes i with parent := v } }

/-- The internal comparison `binary_heap_compare`: for a MIN heap it calls the
user comparator as given, for a MAX heap with the arguments swapped.  The user
comparator is the integer-difference comparator of the repository's tests. -/
def binary_heap_compare (heap : binary_heap_t) (node1 node2 : Nat) : Int :=
  match heap.heap_type with
  | BINARY_HEAP_MIN => heap.key node1 - heap.key node2
  | BINARY_HEAP_MAX => heap.key node2 - heap.key node1

/-- `binary_heap_init`: an empty heap over the given discipline and
comparator keys.  The caller's nodes are zero-initialized as the header
requires before first use. -/
def binary_heap_init (heap_type : binary_heap_type_t) (key : Nat → Int) :
    binary_heap_t :=
  { heap_type := heap_type, num_entries := 0, key := key, min := none,
    nodes := fun _ => nullLinks }

/-- `binary_heap_top`: return `heap->min` without removing it. -/
def binary_heap_top (s : binary_heap_t) : Option Nat := s.min

/-- `binary_heap_num_entries`. -/
def binary_heap_num_entries (s : binary_heap_t) : Nat := s.num_entries

/-- An lvalue the path walks write through: `&heap->min`, `&node->left` or
`&node->right` (the C code navigates with a pointer to pointer). -/
inductive Loc
  | root
  | leftOf (i : Nat)
  | rightOf (i : Nat)
deriving DecidableEq

/-- Read through a `Loc` (the C `*child`). -/
def readLoc (s : binary_heap_t) : Loc → Option Nat
  | Loc.root => s.min
  | Loc.leftOf i => (s.nodes i).left
  | Loc.rightOf i => (s.nodes i).right

/-- Write through a `Loc` (the C `*child = ...`). -/
def writeLoc (s : binary_heap_t) : Loc → Option Nat → binary_heap_t
  | Loc.root, v => { s with min := v }
  | Loc.leftOf i, v => setLeft s i v
  | Loc.rightOf i, v => setRight s i v

/-- The structural swap `binary_heap_node_swap`, statement by statement.
`parent` and `child` are the two node addresses; the C code first swaps the
two three-pointer records wholesale and then repairs the self references,
the sibling, the two grandchildren, and the grandparent (or `heap->min`). -/
def binary_heap_node_swap (s0 : binary_heap_t) (parent child : Nat) :
    binary_heap_t :=
  let t : NodeLinks := s0.nodes parent
  let s1 := setNode s0 parent (s0.nodes child)
  let s2 := setNode s1 child t
  let s3 := setParent s2 parent (some child)
  let pair :=
    if (s3.nodes child).left = some child then
      (setLeft s3 child (some parent), (s3.nodes child).right)
    else
      (setRight s3 child (some parent), (s3.nodes child).left)
  let s4 := pair.1
  let sibling := pair.2
  let s5 :=
    match sibling with
    | some sib => setParent s4 sib (some child)
    | none => s4
  let s6 :=
    match (s5.nodes parent).left with
    | some l => setParent s5 l (some parent)
    | none => s5
  let s7 :=
    match (s6.nodes parent).right with
    | some r => setParent s6 r (some parent)
    | none => s6
  match (s7.nodes child).parent with
  | none => { s7 with min := some child }
  | some gp =>
    if (s7.nodes gp).left = some parent then setLeft s7 gp (some child)
    else setRight s7 gp (some child)

/-- Structural worker for the path-building loop: the first argument is a
recursion bound.  The loop halves `n` each iteration, so any bound of at
least `n` gives the loop's exact behavior (`pathLoopF_fuel`). -/
def pathLoopF : Nat → Nat → Nat → Nat → Nat × Nat
  | 0, path, k, _ => (path, k)
  | Nat.succ fuel, path, k, n =>
    if 2 ≤ n then pathLoopF fuel (2 * path + n % 2) (k + 1) (n / 2)
    else (path, k)

/-- The path-building loop shared by insert and delete:
`for (k = 0, n = start; n >= 2; k += 1, n /= 2) path = (path << 1) | (n & 1)`.
The bound `n` passed to the worker covers every iteration the C loop makes
(`pathLoop_eq` recovers the loop's one-step unfolding). -/
def pathLoop (path k n : Nat) : Nat × Nat := pathLoopF n path k n

/-- The descent loop of `binary_heap_insert`: `parent` and `child` walk down
`k` levels following the low bits of `path` (`1` descends right, `0` left).
Dereferencing a null pointer is undefined behavior in C; that branch is
unreachable on well-formed heaps and is given an arbitrary total value. -/
def insertWalk (s : binary_heap_t) (parent child : Loc) (path k : Nat) :
    Loc × Loc :=
  match k with
  | 0 => (parent, child)
  | Nat.succ k =>
    let parent := child
    let child :=
      match readLoc s child with
      | some c => if path % 2 = 1 then Loc.rightOf c else Loc.leftOf c
      | none => Loc.root
    insertWalk s parent child (path / 2) k

/-- The descent loop of `binary_heap_delete` (single cursor `max`). -/
def deleteWalk (s : binary_heap_t) (max : Loc) (path k : Nat) : Loc :=
  match k with
  | 0 => max
  | Nat.succ k =>
    let max :=
      match readLoc s max with
      | some c => if path % 2 = 1 then Loc.rightOf c else Loc.leftOf c
      | none => Loc.root
    deleteWalk s max (path / 2) k

/-- The sift-up loop shared by insert, delete and modify:
`while (node->parent != NULL && binary_heap_compare(heap, node, node->parent) < 0)
binary_heap_node_swap(heap, node->parent, node);`.  The loop is fuel-indexed;
the call sites pass `num_entries`, which exceeds the depth of every
well-formed heap. -/
def siftUpLoop (fuel : Nat) (s : binary_heap_t) (nn : Nat) : binary_heap_t :=
  match fuel with
  | 0 => s
  | Nat.succ fuel =>
    match (s.nodes nn).parent with
    | none => s
    | some p =>
      if binary_heap_compare s nn p < 0 then
        siftUpLoop fuel (binary_heap_node_swap s p nn) nn
      else s

/-- The sift-down loop shared by delete and modify: pick the smallest of the
node and its children, stop if it is the node, otherwise swap and repeat. -/
def siftDownLoop (fuel : Nat) (s : binary_heap_t) (x : Nat) : binary_heap_t :=
  match fuel with
  | 0 => s
  | Nat.succ fuel =>
    let sm1 :=
      match (s.nodes x).left with
      | some l => if binary_heap_compare s l x < 0 then l else x
      | none => x
    let sm2 :=
      match (s.nodes x).right with
      | some r => if binary_heap_compare s r sm1 < 0 then r else sm1
      | none => sm1
    if sm2 = x then s
    else siftDownLoop fuel (binary_heap_node_swap s x sm2) x

/-- `binary_heap_insert`.  The node argument is a possibly-null pointer; a
null heap argument has no counterpart in the embedding (the state is the
heap). -/
def binary_heap_insert (s : binary_heap_t) (newnode : Option Nat) :
    binary_heap_err_t × binary_heap_t :=
  match newnode with
  | none => (BINARY_HEAP_ERR_INVAL, s)
  | some nn =>
    if (s.nodes nn).left ≠ none ∨ (s.nodes nn).right ≠ none ∨
        (s.nodes nn).parent ≠ none then
      (BINARY_HEAP_ERR_INVAL, s)
    else
      let pk := pathLoop 0 0 ((1 + s.num_entries) % U32)
      let pc := insertWalk s Loc.root Loc.root pk.1 pk.2
      let s1 := setParent s nn (readLoc s pc.1)
      let s2 := writeLoc s1 pc.2 (some nn)
      let s3 := { s2 with num_entries := (s2.num_entries + 1) % U32 }
      (BINARY_HEAP_ERR_OK, siftUpLoop s3.num_entries s3 nn)

/-- `binary_heap_delete`.  As in the C source: reject a null node, an empty
heap, or a fully detached node while more than one entry is present; walk to
the last slot, unlink it, and either finish (the unlinked node was the one to
delete) or substitute it for the deleted node and sift down then up.  The
`none` branch after the unlink corresponds to a null dereference (undefined
behavior) in the C code and is unreachable on well-formed heaps. -/
def binary_heap_delete (s : binary_heap_t) (node? : Option Nat) :
    binary_heap_err_t × binary_heap_t :=
  match node? with
  | none => (BINARY_HEAP_ERR_INVAL, s)
  | some node =>
    if s.num_entries = 0 ∨
        (1 < s.num_entries ∧ (s.nodes node).left = none ∧
          (s.nodes node).right = none ∧ (s.nodes node).parent = none) then
      (BINARY_HEAP_ERR_NOENT, s)
    else
      let pk := pathLoop 0 0 s.num_entries
      let maxLoc := deleteWalk s Loc.root pk.1 pk.2
      let s1 := { s with num_entries := s.num_entries - 1 }
      let child? := readLoc s1 maxLoc
      let s2 := writeLoc s1 maxLoc none
      match child? with
      | none => (BINARY_HEAP_ERR_OK, setNode s2 node nullLinks)
      | some child =>
        if child = node then
          let s3 := if s2.min = some child then { s2 with min := none } else s2
          (BINARY_HEAP_ERR_OK, setNode s3 node nullLinks)
        else
          let s3 := setLeft s2 child (s2.nodes node).left
          let s4 := setRight s3 child (s3.nodes node).right
          let s5 := setParent s4 child (s4.nodes node).parent
          let s6 :=
            match (s5.nodes child).left with
            | some l => setParent s5 l (some child)
            | none => s5
          let s7 :=
            match (s6.nodes child).right with
            | some r => setParent s6 r (some child)
            | none => s6
          let s8 :=
            match (s7.nodes node).parent with
            | none => { s7 with min := some child }
            | some p =>
              if (s7.nodes p).left = some node then setLeft s7 p (some child)
              else setRight s7 p (some child)
          let s9 := siftDownLoop s8.num_entries s8 child
          let s10 := siftUpLoop s9.num_entries s9 child
          (BINARY_HEAP_ERR_OK, setNode s10 node nullLinks)

/-- `binary_heap_modify`: same guard as delete, then sift the node down and
then up. -/
def binary_heap_modify (s : binary_heap_t) (node? : Option Nat) :
    binary_heap_err_t × binary_heap_t :=
  match node? with
  | none => (BINARY_HEAP_ERR_INVAL, s)
  | some node =>
    if s.num_entries = 0 ∨
        (1 < s.num_entries ∧ (s.nodes node).left = none ∧
          (s.nodes node).right = none ∧ (s.nodes node).parent = none) then
      (BINARY_HEAP_ERR_NOENT, s)
    else
      let s1 := siftDownLoop s.num_entries s node
      let s2 := siftUpLoop s1.num_entries s1 node
      (BINARY_HEAP_ERR_OK, s2)

/-- `binary_heap_pop`: remember `heap->min`, delete it, return it (null on an
empty heap or when the delete fails). -/
def binary_heap_pop (s : binary_heap_t) : Option Nat × binary_heap_t :=
  if s.num_entries = 0 then (none, s)
  else
    let m := s.min
    let r := binary_heap_delete s s.min
    if r.1 ≠ BINARY_HEAP_ERR_OK then (none, r.2) else (m, r.2)

/-!
The AVL tree (OrderedTree).  The repository ships only the interface
`src/avl-tree.h`; the implementation file `avl-tree.c` it refers to is not
among the sources.  The ordered-tree operations are therefore modelled from
the specification, and the claims about them are settled against this model.
-/

/-- Modelled from the spec: the node of the OrderedTree with its two child
slots and cached subtree height (leaf = 1, absent child = 0).  The missing
`avl-tree.c` stores a user value reached through a key offset; the tests use
integer keys, so a node is identified with its key here. -/
inductive AVLTreeM
  | leaf
  | node (l : AVLTreeM) (k : Int) (h : Nat) (r : AVLTreeM)
deriving DecidableEq

namespace AVLTreeM

/-- Modelled from the spec: `avl_tree_subtree_height`, the cached height, `0`
for an absent subtree. -/
def heightM : AVLTreeM → Nat
  | leaf => 0
  | node _ _ h _ => h

/-- Attach two subtrees under a key, recomputing the cached height. -/
def mkNode (l : AVLTreeM) (k : Int) (r : AVLTreeM) : AVLTreeM :=
  node l k (1 + max l.heightM r.heightM) r

/-- Modelled from the spec: rebalancing at an ancestor whose balance factor
reached plus or minus two — a single rotation when the taller child is outer
heavy, a double rotation (rotate the taller child first, then the ancestor)
otherwise. -/
def rebalanceM (l : AVLTreeM) (k : Int) (r : AVLTreeM) : AVLTreeM :=
  if r.heightM + 1 < l.heightM then
    match l with
    | node ll lk _ lr =>
      if lr.heightM ≤ ll.heightM then mkNode ll lk (mkNode lr k r)
      else
        match lr with
        | node lrl lrk _ lrr => mkNode (mkNode ll lk lrl) lrk (mkNode lrr k r)
        | leaf => mkNode l k r
    | leaf => mkNode l k r
  else if l.heightM + 1 < r.heightM then
    match r with
    | node rl rk _ rr =>
      if rl.heightM ≤ rr.heightM then mkNode (mkNode l k rl) rk rr
      else
        match rl with
        | node rll rlk _ rlr => mkNode (mkNode l k rll) rlk (mkNode rlr rk rr)
        | leaf => mkNode l k r
    | leaf => mkNode l k r
  else mkNode l k r

/-- Modelled from the spec: `avl_tree_insert` — standard BST descent with the
comparator, rejection of an equal key (tree unchanged), rebalancing on the way
back up. -/
def avl_tree_insert (t : AVLTreeM) (x : Int) : AVLTreeM :=
  match t with
  | leaf => mkNode leaf x leaf
  | node l k h r =>
    if x < k then rebalanceM (avl_tree_insert l x) k r
    else if k < x then rebalanceM l k (avl_tree_insert r x)
    else node l k h r

/-- Descent for the successor: the smallest key strictly greater than the
probe, tracking the best candidate ancestor on each left branch taken. -/
def succGo : AVLTreeM → Int → Option Int → Option Int
  | leaf, _, best => best
  | node l k _ r, x, best =>
    if x < k then succGo l x (some k) else succGo r x best

/-- Modelled from the spec: `avl_tree_successor`. -/
def avl_tree_successor (t : AVLTreeM) (x : Int) : Option Int :=
  succGo t x none

/-- Descent for min-equal-or-greater: like the successor but an exact match
also qualifies. -/
def megGo : AVLTreeM → Int → Option Int → Option Int
  | leaf, _, best => best
  | node l k _ r, x, best =>
    if k < x then megGo r x best else megGo l x (some k)

/-- Modelled from the spec: `avl_tree_min_equal_or_greater`. -/
def avl_tree_min_equal_or_greater (t : AVLTreeM) (x : Int) : Option Int :=
  megGo t x none

/-- Descent for the predecessor: the largest key strictly less than the
probe. -/
def predGo : AVLTreeM → Int → Option Int → Option Int
  | leaf, _, best => best
  | node l k _ r, x, best =>
    if k < x then predGo r x (some k) else predGo l x best

/-- Modelled from the spec: `avl_tree_predeccessor` (the header's spelling). -/
def avl_tree_predeccessor (t : AVLTreeM) (x : Int) : Option Int :=
  predGo t x none

/-- Descent for max-equal-or-less: like the predecessor but an exact match
also qualifies. -/
def melGo : AVLTreeM → Int → Option Int → Option Int
  | leaf, _, best => best
  | node l k _ r, x, best =>
    if x < k then melGo l x best else melGo r x (some k)

/-- Modelled from the spec: `avl_tree_max_equal_or_less`. -/
def avl_tree_max_equal_or_less (t : AVLTreeM) (x : Int) : Option Int :=
  melGo t x none

end AVLTreeM

/-- The OrderedTree of claim C9, built by inserting the spec's key sequence
in order into an empty tree. -/
def c9Tree : AVLTreeM :=
  [(89 : Int), 23, 42, 4, 16, 15, 8, 99, 50, 30].foldl
    AVLTreeM.avl_tree_insert AVLTreeM.leaf

/-!
Specification-level definitions for the heap: the complete-binary-tree layout
invariant, heap order, membership, operation sequences, and the concrete
states the claims mention.
-/

/-- Normalized key: the caller key for a MIN heap, its negation for a MAX
heap.  `binary_heap_compare s a b = nk s a - nk s b`, so every mutating
operation behaves as a MIN heap over `nk`. -/
def nk (s : binary_heap_t) (x : Nat) : Int :=
  match s.heap_type with
  | binary_heap_type_t.BINARY_HEAP_MIN => s.key x
  | binary_heap_type_t.BINARY_HEAP_MAX => - s.key x

/-- The complete-binary-tree layout of a well-formed heap with `num_entries`
nodes.  `pos` names the node id sitting at each slot, slots being numbered
breadth first from 1 (slot `i` has children `2*i` and `2*i+1` and parent
`i / 2`), which is exactly the numbering the path loops of insert and delete
read off the binary representation of the slot. -/
structure Shaped (s : binary_heap_t) (pos : Nat → Nat) : Prop where
  bound : s.num_entries < U32
  min_eq : s.min = if s.num_entries = 0 then none else some (pos 1)
  left_eq : ∀ i, 1 ≤ i → i ≤ s.num_entries →
    (s.nodes (pos i)).left =
      if 2 * i ≤ s.num_entries then some (pos (2 * i)) else none
  right_eq : ∀ i, 1 ≤ i → i ≤ s.num_entries →
    (s.nodes (pos i)).right =
      if 2 * i + 1 ≤ s.num_entries then some (pos (2 * i + 1)) else none
  parent_eq : ∀ i, 2 ≤ i → i ≤ s.num_entries →
    (s.nodes (pos i)).parent = some (pos (i / 2))
  root_parent : 1 ≤ s.num_entries → (s.nodes (pos 1)).parent = none
  inj : ∀ i j, 1 ≤ i → i ≤ s.num_entries → 1 ≤ j → j ≤ s.num_entries →
    pos i = pos j → i = j
  out : ∀ x, (∀ i, 1 ≤ i → i ≤ s.num_entries → pos i ≠ x) →
    s.nodes x = nullLinks

/-- Heap order over a layout: along every parent-child slot pair the
normalized keys are non-decreasing downward. -/
def HeapOrd (s : binary_heap_t) (pos : Nat → Nat) : Prop :=
  ∀ i, 2 ≤ i → i ≤ s.num_entries → nk s (pos (i / 2)) ≤ nk s (pos i)

/-- Heap order read off the raw links, as the spec states it: every node
compares less than or equal to each node its `left` or `right` pointer
reaches. -/
def ChildOrdered (s : binary_heap_t) : Prop :=
  ∀ a b, ((s.nodes a).left = some b ∨ (s.nodes a).right = some b) →
    binary_heap_compare s a b ≤ 0

/-- The slot assignment after exchanging the occupants of slots `a` and
`b`. -/
def swapSlots (pos : Nat → Nat) (a b : Nat) : Nat → Nat :=
  fun i => if i = a then pos b else if i = b then pos a else pos i

/-- The lvalue holding the pointer to slot `m` of a layout: `&heap->min` for
the root slot, otherwise the appropriate child field of the parent slot's
node. -/
def locOfSlot (pos : Nat → Nat) (m : Nat) : Loc :=
  if m = 1 then Loc.root
  else if m % 2 = 0 then Loc.leftOf (pos (m / 2)) else Loc.rightOf (pos (m / 2))

/-- Slot reached from slot `j` after consuming `k` low bits of `path`, bit 1
descending to the right child slot and bit 0 to the left: the consumer side
of the path loops. -/
def followSlots (j path k : Nat) : Nat :=
  match k with
  | 0 => j
  | Nat.succ k => followSlots (2 * j + path % 2) (path / 2) k

/-- Grafting the below-leading-bit path of `n` under slot `j`: the slot the
path loop's output navigates to when consumed from `j`. -/
def graft (j n : Nat) : Nat :=
  if 2 ≤ n then 2 * graft j (n / 2) + n % 2 else j
termination_by n
decreasing_by exact Nat.div_lt_self (by omega) (by omega)

/-- Node ids in the subtree hanging from an optional node pointer, collected
left to right with a recursion-depth fuel (the depth of a well-formed heap
never exceeds its entry count). -/
def subtreeIds (s : binary_heap_t) : Nat → Option Nat → List Nat
  | 0, _ => []
  | _ + 1, none => []
  | fuel + 1, some x =>
    x :: (subtreeIds s fuel (s.nodes x).left ++ subtreeIds s fuel (s.nodes x).right)

/-- The node ids currently part of the heap: the tree below `heap->min`. -/
def heapIds (s : binary_heap_t) : List Nat := subtreeIds s s.num_entries s.min

/-- A node is part of the heap when the tree below `heap->min` reaches it. -/
def InHeap (s : binary_heap_t) (x : Nat) : Prop := x ∈ heapIds s

instance (s : binary_heap_t) (x : Nat) : Decidable (InHeap s x) := by
  unfold InHeap; infer_instance

/-- One call of the public mutating interface. -/
inductive HeapOp
  | ins (x : Option Nat)
  | del (x : Option Nat)
  | mod (x : Option Nat)
  | pop
deriving DecidableEq

/-- The state after one call (the returned error or node is dropped; a
rejected call leaves the state unchanged). -/
def applyOp (s : binary_heap_t) : HeapOp → binary_heap_t
  | HeapOp.ins x => (binary_heap_insert s x).2
  | HeapOp.del x => (binary_heap_delete s x).2
  | HeapOp.mod x => (binary_heap_modify s x).2
  | HeapOp.pop => (binary_heap_pop s).2

/-- The state after a sequence of calls. -/
def runOps (s : binary_heap_t) : List HeapOp → binary_heap_t
  | [] => s
  | op :: ops => runOps (applyOp s op) ops

/-- An operation only on insert or delete (the operations claim C1
quantifies over). -/
def isInsDel : HeapOp → Prop
  | HeapOp.ins _ => True
  | HeapOp.del _ => True
  | _ => False

/-- A call that respects the documented node lifecycle at the state it is
made in: insert only nodes not currently in the heap (and below the
`uint32_t` capacity); delete or modify a node from outside the heap only
when the heap does not have exactly one entry (such calls are then rejected
by the null-links guard; with exactly one entry the guard cannot see them).
Pop is always safe. -/
def OpOk (s : binary_heap_t) : HeapOp → Prop
  | HeapOp.ins x => s.num_entries + 1 < U32 ∧ ∀ id, x = some id → ¬ InHeap s id
  | HeapOp.del x => ∀ id, x = some id → (InHeap s id ∨ s.num_entries ≠ 1)
  | HeapOp.mod x => ∀ id, x = some id → (InHeap s id ∨ s.num_entries ≠ 1)
  | HeapOp.pop => True

/-- A sequence of calls each of which respects the lifecycle at its own
state. -/
inductive SafeRun : binary_heap_t → List HeapOp → Prop
  | nil (s : binary_heap_t) : SafeRun s []
  | cons (s : binary_heap_t) (op : HeapOp) (ops : List HeapOp) :
    OpOk s op → SafeRun (applyOp s op) ops → SafeRun s (op :: ops)

/-- Pop `k` times, collecting the returned pointers. -/
def popTimes (s : binary_heap_t) : Nat → List (Option Nat) × binary_heap_t
  | 0 => ([], s)
  | Nat.succ m =>
    let r := binary_heap_pop s
    let rest := popTimes r.2 m
    (r.1 :: rest.1, rest.2)

/-- What claim C1 asserts of a state: popping once per entry drains the heap,
every pop returns a node, the nodes returned are exactly the heap's entries,
and their keys come out ascending for a MIN heap and descending for a MAX
heap. -/
def PopDrain (s : binary_heap_t) : Prop :=
  (popTimes s s.num_entries).2.num_entries = 0 ∧
  ∃ ids : List Nat,
    (popTimes s s.num_entries).1 = ids.map some ∧
    List.Perm ids (heapIds s) ∧
    (match s.heap_type with
     | binary_heap_type_t.BINARY_HEAP_MIN =>
       List.Sorted (· ≤ ·) (ids.map s.key)
     | binary_heap_type_t.BINARY_HEAP_MAX =>
       List.Sorted (· ≥ ·) (ids.map s.key))

/-- Keys used by the concrete counterexample states: node id `i` has key
`i`. -/
def exKey : Nat → Int := fun i => Int.ofNat i

/-- The one-entry MIN heap holding node 0. -/
def exSingleton : binary_heap_t :=
  (binary_heap_insert (binary_heap_init binary_heap_type_t.BINARY_HEAP_MIN exKey)
    (some 0)).2

/-- The keys of the heap of claim C8: node `i` (in insertion order) carries
the `i`-th key of the spec's list. -/
def c8Key : Nat → Int := fun i =>
  [(78 : Int), 24, 39, 3, 18, 99, 7, 15, 49, 31, 103, 65, 110].getD i 0

/-- The C8 heap: the thirteen nodes inserted in order into a MIN heap. -/
def c8Heap : binary_heap_t :=
  (binary_heap_insert
    (binary_heap_insert
    (binary_heap_insert
    (binary_heap_insert
    (binary_heap_insert
    (binary_heap_insert
    (binary_heap_insert
    (binary_heap_insert
    (binary_heap_insert
    (binary_heap_insert
    (binary_heap_insert
    (binary_heap_insert
    (binary_heap_insert
    (binary_heap_init binary_heap_type_t.BINARY_HEAP_MIN c8Key)
    (some 0)).2
    (some 1)).2
    (some 2)).2
    (some 3)).2
    (some 4)).2
    (some 5)).2
    (some 6)).2
    (some 7)).2
    (some 8)).2
    (some 9)).2
    (some 10)).2
    (some 11)).2
    (some 12)).2

/-- The C8 heap after the caller raised node 3's stored key to 1000 (a store
into caller memory, not a heap operation). -/
def c8HeapRaised : binary_heap_t := { c8Heap with key := upd c8Key 3 1000 }

/-- The C8 heap after `binary_heap_modify` repaired the raised key. -/
def c8HeapModified : binary_heap_t :=
  (binary_heap_modify c8HeapRaised (some 3)).2

/-- The two-entry MIN heap holding nodes 0 and 1 (keys 0 and 1). -/
def exPair : binary_heap_t := (binary_heap_insert exSingleton (some 1)).2

/-- Keys for the duplicate-insert witness: every node has key 5. -/
def exDupKey : Nat → Int := fun _ => 5

/-- A two-entry MIN heap whose two nodes carry equal keys. -/
def exDup : binary_heap_t :=
  (binary_heap_insert
    ((binary_heap_insert (binary_heap_init binary_heap_type_t.BINARY_HEAP_MIN exDupKey)
      (some 0)).2) (some 1)).2

/-- Present a concrete heap state literally: node `i` carries the `i`-th
record of the list (absent entries are zeroed caller memory). -/
def mkHeap (ht : binary_heap_type_t) (key : Nat → Int) (num : Nat)
    (min : Option Nat) (ls : List NodeLinks) : binary_heap_t :=
  { heap_type := ht, num_entries := num, key := key, min := min,
    nodes := fun i => ls.getD i nullLinks }

/-- The C8 keys after the caller raised node 3's key to 1000. -/
def c8KeyR : Nat → Int := upd c8Key 3 1000

/-- The C8 heap after the first 0 inserts. -/
def c8s0 : binary_heap_t :=
  mkHeap binary_heap_type_t.BINARY_HEAP_MIN c8Key 0 (none)
    []

/-- The C8 heap after the first 1 inserts. -/
def c8s1 : binary_heap_t :=
  mkHeap binary_heap_type_t.BINARY_HEAP_MIN c8Key 1 (some 0)
    []

/-- The C8 heap after the first 2 inserts. -/
def c8s2 : binary_heap_t :=
  mkHeap binary_heap_type_t.BINARY_HEAP_MIN c8Key 2 (some 1)
    [⟨none, none, some 1⟩, ⟨some 0, none, none⟩]

/-- The C8 heap after the first 3 inserts. -/
def c8s3 : binary_heap_t :=
  mkHeap binary_heap_type_t.BINARY_HEAP_MIN c8Key 3 (some 1)
    [⟨none, none, some 1⟩, ⟨some 0, some 2, none⟩, ⟨none, none, some 1⟩]

/-- The C8 heap after the first 4 inserts. -/
def c8s4 : binary_heap_t :=
  mkHeap binary_heap_type_t.BINARY_HEAP_MIN c8Key 4 (some 3)
    [⟨none, none, some 1⟩, ⟨some 0, none, some 3⟩, ⟨none, none, some 3⟩, ⟨some 1, some 2, none⟩]

/-- The C8 heap after the first 5 inserts. -/
def c8s5 : binary_heap_t :=
  mkHeap binary_heap_type_t.BINARY_HEAP_MIN c8Key 5 (some 3)
    [⟨none, none, some 4⟩, ⟨none, none, some 4⟩, ⟨none, none, some 3⟩, ⟨some 4, some 2, none⟩, ⟨some 0, some 1, some 3⟩]

/-- The C8 heap after the first 6 inserts. -/
def c8s6 : binary_heap_t :=
  mkHeap binary_heap_type_t.BINARY_HEAP_MIN c8Key 6 (some 3)
    [⟨none, none, some 4⟩, ⟨none, none, some 4⟩, ⟨some 5, none, some 3⟩, ⟨some 4, some 2, none⟩, ⟨some 0, some 1, some 3⟩, ⟨none, none, some 2⟩]

/-- The C8 heap after the first 7 inserts. -/
def c8s7 : binary_heap_t :=
  mkHeap binary_heap_type_t.BINARY_HEAP_MIN c8Key 7 (some 3)
    [⟨none, none, some 4⟩, ⟨none, none, some 4⟩, ⟨none, none, some 6⟩, ⟨some 4, some 6, none⟩, ⟨some 0, some 1, some 3⟩, ⟨none, none, some 6⟩, ⟨some 5, some 2, some 3⟩]

/-- The C8 heap after the first 8 inserts. -/
def c8s8 : binary_heap_t :=
  mkHeap binary_heap_type_t.BINARY_HEAP_MIN c8Key 8 (some 3)
    [⟨none, none, some 4⟩, ⟨none, none, some 7⟩, ⟨none, none, some 6⟩, ⟨some 7, some 6, none⟩, ⟨some 0, none, some 7⟩, ⟨none, none, some 6⟩, ⟨some 5, some 2, some 3⟩, ⟨some 4, some 1, some 3⟩]

/-- The C8 heap after the first 9 inserts. -/
def c8s9 : binary_heap_t :=
  mkHeap binary_heap_type_t.BINARY_HEAP_MIN c8Key 9 (some 3)
    [⟨none, none, some 4⟩, ⟨none, none, some 7⟩, ⟨none, none, some 6⟩, ⟨some 7, some 6, none⟩, ⟨some 0, some 8, some 7⟩, ⟨none, none, some 6⟩, ⟨some 5, some 2, some 3⟩, ⟨some 4, some 1, some 3⟩, ⟨none, none, some 4⟩]

/-- The C8 heap after the first 10 inserts. -/
def c8s10 : binary_heap_t :=
  mkHeap binary_heap_type_t.BINARY_HEAP_MIN c8Key 10 (some 3)
    [⟨none, none, some 4⟩, ⟨some 9, none, some 7⟩, ⟨none, none, some 6⟩, ⟨some 7, some 6, none⟩, ⟨some 0, some 8, some 7⟩, ⟨none, none, some 6⟩, ⟨some 5, some 2, some 3⟩, ⟨some 4, some 1, some 3⟩, ⟨none, none, some 4⟩, ⟨none, none, some 1⟩]

/-- The C8 heap after the first 11 inserts. -/
def c8s11 : binary_heap_t :=
  mkHeap binary_heap_type_t.BINARY_HEAP_MIN c8Key 11 (some 3)
    [⟨none, none, some 4⟩, ⟨some 9, some 10, some 7⟩, ⟨none, none, some 6⟩, ⟨some 7, some 6, none⟩, ⟨some 0, some 8, some 7⟩, ⟨none, none, some 6⟩, ⟨some 5, some 2, some 3⟩, ⟨some 4, some 1, some 3⟩, ⟨none, none, some 4⟩, ⟨none, none, some 1⟩, ⟨none, none, some 1⟩]

/-- The C8 heap after the first 12 inserts. -/
def c8s12 : binary_heap_t :=
  mkHeap binary_heap_type_t.BINARY_HEAP_MIN c8Key 12 (some 3)
    [⟨none, none, some 4⟩, ⟨some 9, some 10, some 7⟩, ⟨none, none, some 6⟩, ⟨some 7, some 6, none⟩, ⟨some 0, some 8, some 7⟩, ⟨none, none, some 11⟩, ⟨some 11, some 2, some 3⟩, ⟨some 4, some 1, some 3⟩, ⟨none, none, some 4⟩, ⟨none, none, some 1⟩, ⟨none, none, some 1⟩, ⟨some 5, none, some 6⟩]

/-- The C8 heap after the first 13 inserts. -/
def c8s13 : binary_heap_t :=
  mkHeap binary_heap_type_t.BINARY_HEAP_MIN c8Key 13 (some 3)
    [⟨none, none, some 4⟩, ⟨some 9, some 10, some 7⟩, ⟨none, none, some 6⟩, ⟨some 7, some 6, none⟩, ⟨some 0, some 8, some 7⟩, ⟨none, none, some 11⟩, ⟨some 11, some 2, some 3⟩, ⟨some 4, some 1, some 3⟩, ⟨none, none, some 4⟩, ⟨none, none, some 1⟩, ⟨none, none, some 1⟩, ⟨some 5, some 12, some 6⟩, ⟨none, none, some 11⟩]

/-- The C8 heap with node 3's key raised, before the modify call. -/
def c8sr : binary_heap_t :=
  mkHeap binary_heap_type_t.BINARY_HEAP_MIN c8KeyR 13 (some 3)
    [⟨none, none, some 4⟩, ⟨some 9, some 10, some 7⟩, ⟨none, none, some 6⟩, ⟨some 7, some 6, none⟩, ⟨some 0, some 8, some 7⟩, ⟨none, none, some 11⟩, ⟨some 11, some 2, some 3⟩, ⟨some 4, some 1, some 3⟩, ⟨none, none, some 4⟩, ⟨none, none, some 1⟩, ⟨none, none, some 1⟩, ⟨some 5, some 12, some 6⟩, ⟨none, none, some 11⟩]

/-- The C8 heap after the modify and the first 0 pops. -/
def c8p0 : binary_heap_t :=
  mkHeap binary_heap_type_t.BINARY_HEAP_MIN c8KeyR 13 (some 6)
    [⟨none, none, some 4⟩, ⟨some 9, some 10, some 7⟩, ⟨some 11, some 3, some 6⟩, ⟨none, none, some 2⟩, ⟨some 0, some 8, some 7⟩, ⟨none, none, some 11⟩, ⟨some 7, some 2, none⟩, ⟨some 4, some 1, some 6⟩, ⟨none, none, some 4⟩, ⟨none, none, some 1⟩, ⟨none, none, some 1⟩, ⟨some 5, some 12, some 2⟩, ⟨none, none, some 11⟩]

/-- The C8 heap after the modify and the first 1 pops. -/
def c8p1 : binary_heap_t :=
  mkHeap binary_heap_type_t.BINARY_HEAP_MIN c8KeyR 12 (some 7)
    [⟨none, none, some 8⟩, ⟨some 9, some 10, some 4⟩, ⟨some 11, some 3, some 7⟩, ⟨none, none, some 2⟩, ⟨some 8, some 1, some 7⟩, ⟨none, none, some 11⟩, ⟨none, none, none⟩, ⟨some 4, some 2, none⟩, ⟨some 0, some 12, some 4⟩, ⟨none, none, some 1⟩, ⟨none, none, some 1⟩, ⟨some 5, none, some 2⟩, ⟨none, none, some 8⟩]

/-- The C8 heap after the modify and the first 2 pops. -/
def c8p2 : binary_heap_t :=
  mkHeap binary_heap_type_t.BINARY_HEAP_MIN c8KeyR 11 (some 4)
    [⟨none, none, some 8⟩, ⟨some 8, some 9, some 4⟩, ⟨some 11, some 3, some 4⟩, ⟨none, none, some 2⟩, ⟨some 1, some 2, none⟩, ⟨none, none, some 9⟩, ⟨none, none, none⟩, ⟨none, none, none⟩, ⟨some 0, some 12, some 1⟩, ⟨some 5, some 10, some 1⟩, ⟨none, none, some 9⟩, ⟨none, none, some 2⟩, ⟨none, none, some 8⟩]

/-- The C8 heap after the modify and the first 3 pops. -/
def c8p3 : binary_heap_t :=
  mkHeap binary_heap_type_t.BINARY_HEAP_MIN c8KeyR 10 (some 1)
    [⟨none, none, some 8⟩, ⟨some 9, some 2, none⟩, ⟨some 11, some 3, some 1⟩, ⟨none, none, some 2⟩, ⟨none, none, none⟩, ⟨some 10, none, some 9⟩, ⟨none, none, none⟩, ⟨none, none, none⟩, ⟨some 0, some 12, some 9⟩, ⟨some 8, some 5, some 1⟩, ⟨none, none, some 5⟩, ⟨none, none, some 2⟩, ⟨none, none, some 8⟩]

/-- The C8 heap after the modify and the first 4 pops. -/
def c8p4 : binary_heap_t :=
  mkHeap binary_heap_type_t.BINARY_HEAP_MIN c8KeyR 9 (some 9)
    [⟨some 10, some 12, some 8⟩, ⟨none, none, none⟩, ⟨some 11, some 3, some 9⟩, ⟨none, none, some 2⟩, ⟨none, none, none⟩, ⟨none, none, some 8⟩, ⟨none, none, none⟩, ⟨none, none, none⟩, ⟨some 0, some 5, some 9⟩, ⟨some 8, some 2, none⟩, ⟨none, none, some 0⟩, ⟨none, none, some 2⟩, ⟨none, none, some 0⟩]

/-- The C8 heap after the modify and the first 5 pops. -/
def c8p5 : binary_heap_t :=
  mkHeap binary_heap_type_t.BINARY_HEAP_MIN c8KeyR 8 (some 2)
    [⟨some 10, none, some 8⟩, ⟨none, none, none⟩, ⟨some 8, some 11, none⟩, ⟨none, none, some 11⟩, ⟨none, none, none⟩, ⟨none, none, some 8⟩, ⟨none, none, none⟩, ⟨none, none, none⟩, ⟨some 0, some 5, some 2⟩, ⟨none, none, none⟩, ⟨none, none, some 0⟩, ⟨some 12, some 3, some 2⟩, ⟨none, none, some 11⟩]

/-- The C8 heap after the modify and the first 6 pops. -/
def c8p6 : binary_heap_t :=
  mkHeap binary_heap_type_t.BINARY_HEAP_MIN c8KeyR 7 (some 8)
    [⟨some 10, some 5, some 8⟩, ⟨none, none, none⟩, ⟨none, none, none⟩, ⟨none, none, some 11⟩, ⟨none, none, none⟩, ⟨none, none, some 0⟩, ⟨none, none, none⟩, ⟨none, none, none⟩, ⟨some 0, some 11, none⟩, ⟨none, none, none⟩, ⟨none, none, some 0⟩, ⟨some 12, some 3, some 8⟩, ⟨none, none, some 11⟩]

/-- The C8 heap after the modify and the first 7 pops. -/
def c8p7 : binary_heap_t :=
  mkHeap binary_heap_type_t.BINARY_HEAP_MIN c8KeyR 6 (some 11)
    [⟨some 10, some 5, some 11⟩, ⟨none, none, none⟩, ⟨none, none, none⟩, ⟨none, none, some 12⟩, ⟨none, none, none⟩, ⟨none, none, some 0⟩, ⟨none, none, none⟩, ⟨none, none, none⟩, ⟨none, none, none⟩, ⟨none, none, none⟩, ⟨none, none, some 0⟩, ⟨some 0, some 12, none⟩, ⟨some 3, none, some 11⟩]

/-- The C8 heap after the modify and the first 8 pops. -/
def c8p8 : binary_heap_t :=
  mkHeap binary_heap_type_t.BINARY_HEAP_MIN c8KeyR 5 (some 0)
    [⟨some 5, some 12, none⟩, ⟨none, none, none⟩, ⟨none, none, none⟩, ⟨none, none, some 5⟩, ⟨none, none, none⟩, ⟨some 10, some 3, some 0⟩, ⟨none, none, none⟩, ⟨none, none, none⟩, ⟨none, none, none⟩, ⟨none, none, none⟩, ⟨none, none, some 5⟩, ⟨none, none, none⟩, ⟨none, none, some 0⟩]

/-- The C8 heap after the modify and the first 9 pops. -/
def c8p9 : binary_heap_t :=
  mkHeap binary_heap_type_t.BINARY_HEAP_MIN c8KeyR 4 (some 5)
    [⟨none, none, none⟩, ⟨none, none, none⟩, ⟨none, none, none⟩, ⟨none, none, some 10⟩, ⟨none, none, none⟩, ⟨some 10, some 12, none⟩, ⟨none, none, none⟩, ⟨none, none, none⟩, ⟨none, none, none⟩, ⟨none, none, none⟩, ⟨some 3, none, some 5⟩, ⟨none, none, none⟩, ⟨none, none, some 5⟩]

/-- The C8 heap after the modify and the first 10 pops. -/
def c8p10 : binary_heap_t :=
  mkHeap binary_heap_type_t.BINARY_HEAP_MIN c8KeyR 3 (some 10)
    [⟨none, none, none⟩, ⟨none, none, none⟩, ⟨none, none, none⟩, ⟨none, none, some 10⟩, ⟨none, none, none⟩, ⟨none, none, none⟩, ⟨none, none, none⟩, ⟨none, none, none⟩, ⟨none, none, none⟩, ⟨none, none, none⟩, ⟨some 3, some 12, none⟩, ⟨none, none, none⟩, ⟨none, none, some 10⟩]

/-- The C8 heap after the modify and the first 11 pops. -/
def c8p11 : binary_heap_t :=
  mkHeap binary_heap_type_t.BINARY_HEAP_MIN c8KeyR 2 (some 12)
    [⟨none, none, none⟩, ⟨none, none, none⟩, ⟨none, none, none⟩, ⟨none, none, some 12⟩, ⟨none, none, none⟩, ⟨none, none, none⟩, ⟨none, none, none⟩, ⟨none, none, none⟩, ⟨none, none, none⟩, ⟨none, none, none⟩, ⟨none, none, none⟩, ⟨none, none, none⟩, ⟨some 3, none, none⟩]

/-- The C8 heap after the modify and the first 12 pops. -/
def c8p12 : binary_heap_t :=
  mkHeap binary_heap_type_t.BINARY_HEAP_MIN c8KeyR 1 (some 3)
    []

/-- The C8 heap after the modify and the first 13 pops. -/
def c8p13 : binary_heap_t :=
  mkHeap binary_heap_type_t.BINARY_HEAP_MIN c8KeyR 0 (none)
    []

/-!
Reading lemmas for the memory combinators, the untouched fields of each
store, and the loop workers.
-/

theorem upd_apply {α : Type} (f : Nat → α) (i : Nat) (v : α) (j : Nat) :
    upd f i v j = if j = i then v else f j := rfl

@[simp] theorem setNode_nodes (s : binary_heap_t) (i : Nat) (nl : NodeLinks) (j : Nat) :
    (setNode s i nl).nodes j = if j = i then nl else s.nodes j := rfl

@[simp] theorem setLeft_nodes (s : binary_heap_t) (i : Nat) (v : Option Nat) (j : Nat) :
    (setLeft s i v).nodes j = if j = i then { s.nodes i with left := v } else s.nodes j := rfl

@[simp] theorem setRight_nodes (s : binary_heap_t) (i : Nat) (v : Option Nat) (j : Nat) :
    (setRight s i v).nodes j = if j = i then { s.nodes i with right := v } else s.nodes j := rfl

@[simp] theorem setParent_nodes (s : binary_heap_t) (i : Nat) (v : Option Nat) (j : Nat) :
    (setParent s i v).nodes j = if j = i then { s.nodes i with parent := v } else s.nodes j := rfl

@[simp] theorem setNode_heap_type (s : binary_heap_t) (i : Nat) (nl : NodeLinks) :
    (setNode s i nl).heap_type = s.heap_type := rfl

@[simp] theorem setLeft_heap_type (s : binary_heap_t) (i : Nat) (v : Option Nat) :
    (setLeft s i v).heap_type = s.heap_type := rfl

@[simp] theorem setRight_heap_type (s : binary_heap_t) (i : Nat) (v : Option Nat) :
    (setRight s i v).heap_type = s.heap_type := rfl

@[simp] theorem setParent_heap_type (s : binary_heap_t) (i : Nat) (v : Option Nat) :
    (setParent s i v).heap_type = s.heap_type := rfl

@[simp] theorem setNode_num (s : binary_heap_t) (i : Nat) (nl : NodeLinks) :
    (setNode s i nl).num_entries = s.num_entries := rfl

@[simp] theorem setLeft_num (s : binary_heap_t) (i : Nat) (v : Option Nat) :
    (setLeft s i v).num_entries = s.num_entries := rfl

@[simp] theorem setRight_num (s : binary_heap_t) (i : Nat) (v : Option Nat) :
    (setRight s i v).num_entries = s.num_entries := rfl

@[simp] theorem setParent_num (s : binary_heap_t) (i : Nat) (v : Option Nat) :
    (setParent s i v).num_entries = s.num_entries := rfl

@[simp] theorem setNode_key (s : binary_heap_t) (i : Nat) (nl : NodeLinks) :
    (setNode s i nl).key = s.key := rfl

@[simp] theorem setLeft_key (s : binary_heap_t) (i : Nat) (v : Option Nat) :
    (setLeft s i v).key = s.key := rfl

@[simp] theorem setRight_key (s : binary_heap_t) (i : Nat) (v : Option Nat) :
    (setRight s i v).key = s.key := rfl

@[simp] theorem setParent_key (s : binary_heap_t) (i : Nat) (v : Option Nat) :
    (setParent s i v).key = s.key := rfl

@[simp] theorem setNode_min (s : binary_heap_t) (i : Nat) (nl : NodeLinks) :
    (setNode s i nl).min = s.min := rfl

@[simp] theorem setLeft_min (s : binary_heap_t) (i : Nat) (v : Option Nat) :
    (setLeft s i v).min = s.min := rfl

@[simp] theorem setRight_min (s : binary_heap_t) (i : Nat) (v : Option Nat) :
    (setRight s i v).min = s.min := rfl

@[simp] theorem setParent_min (s : binary_heap_t) (i : Nat) (v : Option Nat) :
    (setParent s i v).min = s.min := rfl

theorem writeLoc_num (s : binary_heap_t) (l : Loc) (v : Option Nat) :
    (writeLoc s l v).num_entries = s.num_entries := by
  cases l <;> rfl

theorem writeLoc_key (s : binary_heap_t) (l : Loc) (v : Option Nat) :
    (writeLoc s l v).key = s.key := by
  cases l <;> rfl

theorem writeLoc_heap_type (s : binary_heap_t) (l : Loc) (v : Option Nat) :
    (writeLoc s l v).heap_type = s.heap_type := by
  cases l <;> rfl

theorem swap_heap_type (s : binary_heap_t) (p c : Nat) :
    (binary_heap_node_swap s p c).heap_type = s.heap_type := by
  unfold binary_heap_node_swap
  dsimp only
  repeat' split
  all_goals simp

theorem swap_num (s : binary_heap_t) (p c : Nat) :
    (binary_heap_node_swap s p c).num_entries = s.num_entries := by
  unfold binary_heap_node_swap
  dsimp only
  repeat' split
  all_goals simp

theorem swap_key (s : binary_heap_t) (p c : Nat) :
    (binary_heap_node_swap s p c).key = s.key := by
  unfold binary_heap_node_swap
  dsimp only
  repeat' split
  all_goals simp

theorem compare_eq_nk (s : binary_heap_t) (a b : Nat) :
    binary_heap_compare s a b = nk s a - nk s b := by
  unfold binary_heap_compare nk
  cases s.heap_type <;> ring_nf

theorem siftUpLoop_scalars (fuel : Nat) (s : binary_heap_t) (x : Nat) :
    (siftUpLoop fuel s x).heap_type = s.heap_type ∧
    (siftUpLoop fuel s x).num_entries = s.num_entries ∧
    (siftUpLoop fuel s x).key = s.key := by
  induction fuel generalizing s with
  | zero => exact ⟨rfl, rfl, rfl⟩
  | succ fuel ih =>
    rw [siftUpLoop]
    cases h : (s.nodes x).parent with
    | none => exact ⟨rfl, rfl, rfl⟩
    | some p =>
      dsimp only
      split
      · obtain ⟨h1, h2, h3⟩ := ih (binary_heap_node_swap s p x)
        refine ⟨?_, ?_, ?_⟩ <;>
          simp [h1, h2, h3, swap_heap_type, swap_num, swap_key]
      · exact ⟨rfl, rfl, rfl⟩

theorem siftDownLoop_scalars (fuel : Nat) (s : binary_heap_t) (x : Nat) :
    (siftDownLoop fuel s x).heap_type = s.heap_type ∧
    (siftDownLoop fuel s x).num_entries = s.num_entries ∧
    (siftDownLoop fuel s x).key = s.key := by
  induction fuel generalizing s with
  | zero => exact ⟨rfl, rfl, rfl⟩
  | succ fuel ih =>
    rw [siftDownLoop]
    split
    · exact ⟨rfl, rfl, rfl⟩
    · exact ⟨((ih _).1).trans (swap_heap_type s x _),
        ((ih _).2.1).trans (swap_num s x _),
        ((ih _).2.2).trans (swap_key s x _)⟩

theorem pathLoopF_fuel (f1 f2 path k n : Nat) (h1 : n ≤ f1) (h2 : n ≤ f2) :
    pathLoopF f1 path k n = pathLoopF f2 path k n := by
  induction f1 generalizing f2 path k n with
  | zero =>
    interval_cases n
    cases f2 <;> simp [pathLoopF]
  | succ f1 ih =>
    cases f2 with
    | zero =>
      interval_cases n
      simp [pathLoopF]
    | succ f2 =>
      rw [pathLoopF, pathLoopF]
      split
      · exact ih _ _ _ _ (by omega) (by omega)
      · rfl

theorem pathLoop_eq (path k n : Nat) :
    pathLoop path k n =
      if 2 ≤ n then pathLoop (2 * path + n % 2) (k + 1) (n / 2)
      else (path, k) := by
  rw [pathLoop, pathLoop]
  cases n with
  | zero => simp [pathLoopF]
  | succ m =>
    rw [pathLoopF]
    split
    · exact pathLoopF_fuel _ _ _ _ _ (by omega) (by omega)
    · rfl

/-!
Helper lemmas about the result codes of the three mutating operations, and
the first groups of claim theorems (error handling claims).
-/

theorem delete_fst_ok (s : binary_heap_t) (node : Nat)
    (h : ¬ (s.num_entries = 0 ∨
      (1 < s.num_entries ∧ (s.nodes node).left = none ∧
        (s.nodes node).right = none ∧ (s.nodes node).parent = none))) :
    (binary_heap_delete s (some node)).1 = BINARY_HEAP_ERR_OK := by
  rw [binary_heap_delete]
  rw [if_neg h]
  simp only []
  split <;> (try split) <;> rfl

theorem modify_fst_ok (s : binary_heap_t) (node : Nat)
    (h : ¬ (s.num_entries = 0 ∨
      (1 < s.num_entries ∧ (s.nodes node).left = none ∧
        (s.nodes node).right = none ∧ (s.nodes node).parent = none))) :
    (binary_heap_modify s (some node)).1 = BINARY_HEAP_ERR_OK := by
  rw [binary_heap_modify]
  rw [if_neg h]

theorem insert_fst_ok (s : binary_heap_t) (nn : Nat)
    (h : ¬ ((s.nodes nn).left ≠ none ∨ (s.nodes nn).right ≠ none ∨
      (s.nodes nn).parent ≠ none)) :
    (binary_heap_insert s (some nn)).1 = BINARY_HEAP_ERR_OK := by
  rw [binary_heap_insert]
  rw [if_neg h]

/-- Claim C6: whenever `binary_heap_insert`, `binary_heap_delete` or
`binary_heap_modify` returns a code other than `BINARY_HEAP_ERR_OK`, the
resulting state is the argument state itself — top pointer, entry count and
every node's links included.  Every error return of the three functions
happens before any store. -/
theorem c6_rejection_changes_nothing (s : binary_heap_t) (x : Option Nat) :
    ((binary_heap_insert s x).1 ≠ BINARY_HEAP_ERR_OK →
      (binary_heap_insert s x).2 = s) ∧
    ((binary_heap_delete s x).1 ≠ BINARY_HEAP_ERR_OK →
      (binary_heap_delete s x).2 = s) ∧
    ((binary_heap_modify s x).1 ≠ BINARY_HEAP_ERR_OK →
      (binary_heap_modify s x).2 = s) := by
  refine ⟨?_, ?_, ?_⟩
  · cases x with
    | none => intro _; rfl
    | some nn =>
      rw [binary_heap_insert]
      split
      · intro _; rfl
      · intro h; exact absurd rfl h
  · cases x with
    | none => intro _; rfl
    | some node =>
      rw [binary_heap_delete]
      split
      · intro _; rfl
      · intro h; exfalso; apply h
        simp only []
        split <;> (try split) <;> rfl
  · cases x with
    | none => intro _; rfl
    | some node =>
      rw [binary_heap_modify]
      split
      · intro _; rfl
      · intro h; exact absurd rfl h

/-- Witness for C6 at a concrete input: deleting a null node from the
one-entry heap is rejected and leaves the state unchanged. -/
theorem c6_rejection_changes_nothing_witness :
    (binary_heap_delete exSingleton none).1 ≠ BINARY_HEAP_ERR_OK ∧
    (binary_heap_delete exSingleton none).2 = exSingleton :=
  ⟨by decide, (c6_rejection_changes_nothing exSingleton none).2.1 (by decide)⟩

/-- Claim C4 counterexample: with exactly one entry the claim fails.  The
heap `exSingleton` holds the single node 0; node 1 is fully detached and not
part of the heap, yet `binary_heap_delete` returns `BINARY_HEAP_ERR_OK`
(not an error), drops the entry count to zero while leaving `heap->min` set,
and `binary_heap_modify` also returns `BINARY_HEAP_ERR_OK`.  The null-links
guard only fires for `num_entries > 1` because the sole node of a one-entry
heap itself has all links null. -/
theorem c4_counterexample :
    exSingleton.num_entries = 1 ∧
    ¬ InHeap exSingleton 1 ∧
    exSingleton.nodes 1 = nullLinks ∧
    (binary_heap_delete exSingleton (some 1)).1 = BINARY_HEAP_ERR_OK ∧
    (binary_heap_delete exSingleton (some 1)).2.num_entries = 0 ∧
    (binary_heap_delete exSingleton (some 1)).2.min = some 0 ∧
    (binary_heap_modify exSingleton (some 1)).1 = BINARY_HEAP_ERR_OK := by
  decide

/-- Claim C4 as amended: insert of a node with any non-null link is rejected
with `BINARY_HEAP_ERR_INVAL` and changes nothing; delete and modify of a
detached node not in the heap are rejected with `BINARY_HEAP_ERR_NOENT` and
change nothing provided the heap holds more than one entry (the code's
`num_entries > 1` guard; with exactly one entry the counterexample applies). -/
theorem c4_amended_rejections (s : binary_heap_t) (x : Nat) :
    ((s.nodes x).left ≠ none ∨ (s.nodes x).right ≠ none ∨
        (s.nodes x).parent ≠ none →
      binary_heap_insert s (some x) = (BINARY_HEAP_ERR_INVAL, s)) ∧
    (1 < s.num_entries → s.nodes x = nullLinks → ¬ InHeap s x →
      binary_heap_delete s (some x) = (BINARY_HEAP_ERR_NOENT, s) ∧
      binary_heap_modify s (some x) = (BINARY_HEAP_ERR_NOENT, s)) := by
  constructor
  · intro h
    rw [binary_heap_insert, if_pos h]
  · intro hn hx _
    have hl : (s.nodes x).left = none := by rw [hx]; rfl
    have hr : (s.nodes x).right = none := by rw [hx]; rfl
    have hp : (s.nodes x).parent = none := by rw [hx]; rfl
    constructor
    · rw [binary_heap_delete, if_pos (Or.inr ⟨hn, hl, hr, hp⟩)]
    · rw [binary_heap_modify, if_pos (Or.inr ⟨hn, hl, hr, hp⟩)]

/-- Witness for the amended C4 at concrete inputs: on the two-entry heap,
re-inserting the attached node 0 is rejected unchanged, and deleting or
modifying the detached node 2 is rejected unchanged. -/
theorem c4_amended_rejections_witness :
    binary_heap_insert exPair (some 0) = (BINARY_HEAP_ERR_INVAL, exPair) ∧
    binary_heap_delete exPair (some 2) = (BINARY_HEAP_ERR_NOENT, exPair) ∧
    binary_heap_modify exPair (some 2) = (BINARY_HEAP_ERR_NOENT, exPair) :=
  ⟨(c4_amended_rejections exPair 0).1 (by decide),
    ((c4_amended_rejections exPair 2).2 (by decide) (by decide) (by decide)).1,
    ((c4_amended_rejections exPair 2).2 (by decide) (by decide) (by decide)).2⟩

/-- Claim C10: inserting a detached node whose key equals the key of a node
already in the heap succeeds with `BINARY_HEAP_ERR_OK` and bumps the entry
count (a `uint32_t`, hence the modulus); duplicate keys are permitted, and
no heap operation ever returns the declared code `BINARY_HEAP_ERR_DUP`. -/
theorem siftUpLoop_num (fuel : Nat) (s : binary_heap_t) (x : Nat) :
    (siftUpLoop fuel s x).num_entries = s.num_entries :=
  (siftUpLoop_scalars fuel s x).2.1

theorem siftUpLoop_key (fuel : Nat) (s : binary_heap_t) (x : Nat) :
    (siftUpLoop fuel s x).key = s.key :=
  (siftUpLoop_scalars fuel s x).2.2

theorem siftUpLoop_ht (fuel : Nat) (s : binary_heap_t) (x : Nat) :
    (siftUpLoop fuel s x).heap_type = s.heap_type :=
  (siftUpLoop_scalars fuel s x).1

theorem siftDownLoop_num (fuel : Nat) (s : binary_heap_t) (x : Nat) :
    (siftDownLoop fuel s x).num_entries = s.num_entries :=
  (siftDownLoop_scalars fuel s x).2.1

theorem siftDownLoop_key (fuel : Nat) (s : binary_heap_t) (x : Nat) :
    (siftDownLoop fuel s x).key = s.key :=
  (siftDownLoop_scalars fuel s x).2.2

theorem siftDownLoop_ht (fuel : Nat) (s : binary_heap_t) (x : Nat) :
    (siftDownLoop fuel s x).heap_type = s.heap_type :=
  (siftDownLoop_scalars fuel s x).1

theorem c10_duplicate_keys_permitted (s : binary_heap_t) (x : Nat)
    (hnull : s.nodes x = nullLinks)
    (hdup : ∃ y, InHeap s y ∧ s.key y = s.key x) :
    (binary_heap_insert s (some x)).1 = BINARY_HEAP_ERR_OK ∧
    (binary_heap_insert s (some x)).2.num_entries = (s.num_entries + 1) % U32 ∧
    (∀ z, (binary_heap_insert s z).1 ≠ BINARY_HEAP_ERR_DUP) ∧
    (∀ z, (binary_heap_delete s z).1 ≠ BINARY_HEAP_ERR_DUP) ∧
    (∀ z, (binary_heap_modify s z).1 ≠ BINARY_HEAP_ERR_DUP) := by
  clear hdup
  have hguard : ¬ ((s.nodes x).left ≠ none ∨ (s.nodes x).right ≠ none ∨
      (s.nodes x).parent ≠ none) := by
    rw [hnull]
    simp [nullLinks]
  refine ⟨insert_fst_ok s x hguard, ?_, ?_, ?_, ?_⟩
  · rw [binary_heap_insert, if_neg hguard]
    simp only [siftUpLoop_num, writeLoc_num, setParent_num]
  · intro z
    cases z with
    | none => simp [binary_heap_insert]
    | some nn =>
      by_cases hg : ((s.nodes nn).left ≠ none ∨ (s.nodes nn).right ≠ none ∨
          (s.nodes nn).parent ≠ none)
      · rw [binary_heap_insert, if_pos hg]
        simp
      · rw [insert_fst_ok s nn hg]
        simp
  · intro z
    cases z with
    | none => simp [binary_heap_delete]
    | some node =>
      by_cases hg : (s.num_entries = 0 ∨
          (1 < s.num_entries ∧ (s.nodes node).left = none ∧
            (s.nodes node).right = none ∧ (s.nodes node).parent = none))
      · rw [binary_heap_delete, if_pos hg]
        simp
      · rw [delete_fst_ok s node hg]
        simp
  · intro z
    cases z with
    | none => simp [binary_heap_modify]
    | some node =>
      by_cases hg : (s.num_entries = 0 ∨
          (1 < s.num_entries ∧ (s.nodes node).left = none ∧
            (s.nodes node).right = none ∧ (s.nodes node).parent = none))
      · rw [binary_heap_modify, if_pos hg]
        simp
      · rw [modify_fst_ok s node hg]
        simp

/-- Witness for C10: on the two-entry heap with equal keys, inserting the
detached node 2 (key 5, equal to member node 0's key) succeeds and bumps the
count to 3. -/
theorem c10_duplicate_keys_permitted_witness :
    (binary_heap_insert exDup (some 2)).1 = BINARY_HEAP_ERR_OK ∧
    (binary_heap_insert exDup (some 2)).2.num_entries = (2 + 1) % U32 ∧
    (∀ z, (binary_heap_insert exDup z).1 ≠ BINARY_HEAP_ERR_DUP) ∧
    (∀ z, (binary_heap_delete exDup z).1 ≠ BINARY_HEAP_ERR_DUP) ∧
    (∀ z, (binary_heap_modify exDup z).1 ≠ BINARY_HEAP_ERR_DUP) :=
  c10_duplicate_keys_permitted exDup 2 (by decide) ⟨0, by decide, by decide⟩

/-- Two heap states with equal fields are equal (the node and key memories
pointwise). -/
theorem heap_ext {s t : binary_heap_t} (h1 : s.heap_type = t.heap_type)
    (h2 : s.num_entries = t.num_entries) (h3 : s.key = t.key)
    (h4 : s.min = t.min) (h5 : ∀ i, s.nodes i = t.nodes i) : s = t := by
  cases s
  cases t
  simp only at h1 h2 h3 h4
  subst h1
  subst h2
  subst h3
  subst h4
  congr 1
  exact funext h5

theorem popTimes_succ (s : binary_heap_t) (m : Nat) :
    popTimes s (m + 1) =
      ((binary_heap_pop s).1 :: (popTimes (binary_heap_pop s).2 m).1,
        (popTimes (binary_heap_pop s).2 m).2) := rfl

theorem c8init_eq :
    binary_heap_init binary_heap_type_t.BINARY_HEAP_MIN c8Key = c8s0 := by
  refine heap_ext rfl rfl rfl rfl ?_
  intro i
  match i with
  | 0 => rfl
  | 1 => rfl
  | 2 => rfl
  | 3 => rfl
  | 4 => rfl
  | 5 => rfl
  | 6 => rfl
  | 7 => rfl
  | 8 => rfl
  | 9 => rfl
  | 10 => rfl
  | 11 => rfl
  | 12 => rfl
  | i + 13 => rfl
theorem c8ins0 : (binary_heap_insert c8s0 (some 0)).2 = c8s1 := by
  refine heap_ext rfl rfl rfl rfl ?_
  intro i
  match i with
  | 0 => rfl
  | 1 => rfl
  | 2 => rfl
  | 3 => rfl
  | 4 => rfl
  | 5 => rfl
  | 6 => rfl
  | 7 => rfl
  | 8 => rfl
  | 9 => rfl
  | 10 => rfl
  | 11 => rfl
  | 12 => rfl
  | i + 13 => rfl
theorem c8ins1 : (binary_heap_insert c8s1 (some 1)).2 = c8s2 := by
  refine heap_ext rfl rfl rfl rfl ?_
  intro i
  match i with
  | 0 => rfl
  | 1 => rfl
  | 2 => rfl
  | 3 => rfl
  | 4 => rfl
  | 5 => rfl
  | 6 => rfl
  | 7 => rfl
  | 8 => rfl
  | 9 => rfl
  | 10 => rfl
  | 11 => rfl
  | 12 => rfl
  | i + 13 => rfl
theorem c8ins2 : (binary_heap_insert c8s2 (some 2)).2 = c8s3 := by
  refine heap_ext rfl rfl rfl rfl ?_
  intro i
  match i with
  | 0 => rfl
  | 1 => rfl
  | 2 => rfl
  | 3 => rfl
  | 4 => rfl
  | 5 => rfl
  | 6 => rfl
  | 7 => rfl
  | 8 => rfl
  | 9 => rfl
  | 10 => rfl
  | 11 => rfl
  | 12 => rfl
  | i + 13 => rfl
theorem c8ins3 : (binary_heap_insert c8s3 (some 3)).2 = c8s4 := by
  refine heap_ext rfl rfl rfl rfl ?_
  intro i
  match i with
  | 0 => rfl
  | 1 => rfl
  | 2 => rfl
  | 3 => rfl
  | 4 => rfl
  | 5 => rfl
  | 6 => rfl
  | 7 => rfl
  | 8 => rfl
  | 9 => rfl
  | 10 => rfl
  | 11 => rfl
  | 12 => rfl
  | i + 13 => rfl
theorem c8ins4 : (binary_heap_insert c8s4 (some 4)).2 = c8s5 := by
  refine heap_ext rfl rfl rfl rfl ?_
  intro i
  match i with
  | 0 => rfl
  | 1 => rfl
  | 2 => rfl
  | 3 => rfl
  | 4 => rfl
  | 5 => rfl
  | 6 => rfl
  | 7 => rfl
  | 8 => rfl
  | 9 => rfl
  | 10 => rfl
  | 11 => rfl
  | 12 => rfl
  | i + 13 => rfl
theorem c8ins5 : (binary_heap_insert c8s5 (some 5)).2 = c8s6 := by
  refine heap_ext rfl rfl rfl rfl ?_
  intro i
  match i with
  | 0 => rfl
  | 1 => rfl
  | 2 => rfl
  | 3 => rfl
  | 4 => rfl
  | 5 => rfl
  | 6 => rfl
  | 7 => rfl
  | 8 => rfl
  | 9 => rfl
  | 10 => rfl
  | 11 => rfl
  | 12 => rfl
  | i + 13 => rfl
theorem c8ins6 : (binary_heap_insert c8s6 (some 6)).2 = c8s7 := by
  refine heap_ext rfl rfl rfl rfl ?_
  intro i
  match i with
  | 0 => rfl
  | 1 => rfl
  | 2 => rfl
  | 3 => rfl
  | 4 => rfl
  | 5 => rfl
  | 6 => rfl
  | 7 => rfl
  | 8 => rfl
  | 9 => rfl
  | 10 => rfl
  | 11 => rfl
  | 12 => rfl
  | i + 13 => rfl
theorem c8ins7 : (binary_heap_insert c8s7 (some 7)).2 = c8s8 := by
  refine heap_ext rfl rfl rfl rfl ?_
  intro i
  match i with
  | 0 => rfl
  | 1 => rfl
  | 2 => rfl
  | 3 => rfl
  | 4 => rfl
  | 5 => rfl
  | 6 => rfl
  | 7 => rfl
  | 8 => rfl
  | 9 => rfl
  | 10 => rfl
  | 11 => rfl
  | 12 => rfl
  | i + 13 => rfl
theorem c8ins8 : (binary_heap_insert c8s8 (some 8)).2 = c8s9 := by
  refine heap_ext rfl rfl rfl rfl ?_
  intro i
  match i with
  | 0 => rfl
  | 1 => rfl
  | 2 => rfl
  | 3 => rfl
  | 4 => rfl
  | 5 => rfl
  | 6 => rfl
  | 7 => rfl
  | 8 => rfl
  | 9 => rfl
  | 10 => rfl
  | 11 => rfl
  | 12 => rfl
  | i + 13 => rfl
theorem c8ins9 : (binary_heap_insert c8s9 (some 9)).2 = c8s10 := by
  refine heap_ext rfl rfl rfl rfl ?_
  intro i
  match i with
  | 0 => rfl
  | 1 => rfl
  | 2 => rfl
  | 3 => rfl
  | 4 => rfl
  | 5 => rfl
  | 6 => rfl
  | 7 => rfl
  | 8 => rfl
  | 9 => rfl
  | 10 => rfl
  | 11 => rfl
  | 12 => rfl
  | i + 13 => rfl
theorem c8ins10 : (binary_heap_insert c8s10 (some 10)).2 = c8s11 := by
  refine heap_ext rfl rfl rfl rfl ?_
  intro i
  match i with
  | 0 => rfl
  | 1 => rfl
  | 2 => rfl
  | 3 => rfl
  | 4 => rfl
  | 5 => rfl
  | 6 => rfl
  | 7 => rfl
  | 8 => rfl
  | 9 => rfl
  | 10 => rfl
  | 11 => rfl
  | 12 => rfl
  | i + 13 => rfl
theorem c8ins11 : (binary_heap_insert c8s11 (some 11)).2 = c8s12 := by
  refine heap_ext rfl rfl rfl rfl ?_
  intro i
  match i with
  | 0 => rfl
  | 1 => rfl
  | 2 => rfl
  | 3 => rfl
  | 4 => rfl
  | 5 => rfl
  | 6 => rfl
  | 7 => rfl
  | 8 => rfl
  | 9 => rfl
  | 10 => rfl
  | 11 => rfl
  | 12 => rfl
  | i + 13 => rfl
theorem c8ins12 : (binary_heap_insert c8s12 (some 12)).2 = c8s13 := by
  refine heap_ext rfl rfl rfl rfl ?_
  intro i
  match i with
  | 0 => rfl
  | 1 => rfl
  | 2 => rfl
  | 3 => rfl
  | 4 => rfl
  | 5 => rfl
  | 6 => rfl
  | 7 => rfl
  | 8 => rfl
  | 9 => rfl
  | 10 => rfl
  | 11 => rfl
  | 12 => rfl
  | i + 13 => rfl
theorem c8Heap_eq : c8Heap = c8s13 := by
  unfold c8Heap
  rw [c8init_eq, c8ins0, c8ins1, c8ins2, c8ins3, c8ins4, c8ins5, c8ins6, c8ins7, c8ins8, c8ins9, c8ins10, c8ins11, c8ins12]

theorem c8raised_eq : c8HeapRaised = c8sr := by
  unfold c8HeapRaised
  rw [c8Heap_eq]
  exact heap_ext rfl rfl rfl rfl (fun i => rfl)

theorem c8modify_fst :
    (binary_heap_modify c8sr (some 3)).1 = BINARY_HEAP_ERR_OK := rfl

theorem c8modify_snd : (binary_heap_modify c8sr (some 3)).2 = c8p0 := by
  refine heap_ext rfl rfl rfl rfl ?_
  intro i
  match i with
  | 0 => rfl
  | 1 => rfl
  | 2 => rfl
  | 3 => rfl
  | 4 => rfl
  | 5 => rfl
  | 6 => rfl
  | 7 => rfl
  | 8 => rfl
  | 9 => rfl
  | 10 => rfl
  | 11 => rfl
  | 12 => rfl
  | i + 13 => rfl

theorem c8mod_eq : c8HeapModified = c8p0 := by
  unfold c8HeapModified
  rw [c8raised_eq]
  exact c8modify_snd

theorem c8pop1 :
    binary_heap_pop c8p0 = (some 6, c8p1) := by
  refine Prod.ext rfl ?_
  refine heap_ext rfl rfl rfl rfl ?_
  intro i
  match i with
  | 0 => rfl
  | 1 => rfl
  | 2 => rfl
  | 3 => rfl
  | 4 => rfl
  | 5 => rfl
  | 6 => rfl
  | 7 => rfl
  | 8 => rfl
  | 9 => rfl
  | 10 => rfl
  | 11 => rfl
  | 12 => rfl
  | i + 13 => rfl
theorem c8pop2 :
    binary_heap_pop c8p1 = (some 7, c8p2) := by
  refine Prod.ext rfl ?_
  refine heap_ext rfl rfl rfl rfl ?_
  intro i
  match i with
  | 0 => rfl
  | 1 => rfl
  | 2 => rfl
  | 3 => rfl
  | 4 => rfl
  | 5 => rfl
  | 6 => rfl
  | 7 => rfl
  | 8 => rfl
  | 9 => rfl
  | 10 => rfl
  | 11 => rfl
  | 12 => rfl
  | i + 13 => rfl
theorem c8pop3 :
    binary_heap_pop c8p2 = (some 4, c8p3) := by
  refine Prod.ext rfl ?_
  refine heap_ext rfl rfl rfl rfl ?_
  intro i
  match i with
  | 0 => rfl
  | 1 => rfl
  | 2 => rfl
  | 3 => rfl
  | 4 => rfl
  | 5 => rfl
  | 6 => rfl
  | 7 => rfl
  | 8 => rfl
  | 9 => rfl
  | 10 => rfl
  | 11 => rfl
  | 12 => rfl
  | i + 13 => rfl
theorem c8pop4 :
    binary_heap_pop c8p3 = (some 1, c8p4) := by
  refine Prod.ext rfl ?_
  refine heap_ext rfl rfl rfl rfl ?_
  intro i
  match i with
  | 0 => rfl
  | 1 => rfl
  | 2 => rfl
  | 3 => rfl
  | 4 => rfl
  | 5 => rfl
  | 6 => rfl
  | 7 => rfl
  | 8 => rfl
  | 9 => rfl
  | 10 => rfl
  | 11 => rfl
  | 12 => rfl
  | i + 13 => rfl
theorem c8pop5 :
    binary_heap_pop c8p4 = (some 9, c8p5) := by
  refine Prod.ext rfl ?_
  refine heap_ext rfl rfl rfl rfl ?_
  intro i
  match i with
  | 0 => rfl
  | 1 => rfl
  | 2 => rfl
  | 3 => rfl
  | 4 => rfl
  | 5 => rfl
  | 6 => rfl
  | 7 => rfl
  | 8 => rfl
  | 9 => rfl
  | 10 => rfl
  | 11 => rfl
  | 12 => rfl
  | i + 13 => rfl
theorem c8pop6 :
    binary_heap_pop c8p5 = (some 2, c8p6) := by
  refine Prod.ext rfl ?_
  refine heap_ext rfl rfl rfl rfl ?_
  intro i
  match i with
  | 0 => rfl
  | 1 => rfl
  | 2 => rfl
  | 3 => rfl
  | 4 => rfl
  | 5 => rfl
  | 6 => rfl
  | 7 => rfl
  | 8 => rfl
  | 9 => rfl
  | 10 => rfl
  | 11 => rfl
  | 12 => rfl
  | i + 13 => rfl
theorem c8pop7 :
    binary_heap_pop c8p6 = (some 8, c8p7) := by
  refine Prod.ext rfl ?_
  refine heap_ext rfl rfl rfl rfl ?_
  intro i
  match i with
  | 0 => rfl
  | 1 => rfl
  | 2 => rfl
  | 3 => rfl
  | 4 => rfl
  | 5 => rfl
  | 6 => rfl
  | 7 => rfl
  | 8 => rfl
  | 9 => rfl
  | 10 => rfl
  | 11 => rfl
  | 12 => rfl
  | i + 13 => rfl
theorem c8pop8 :
    binary_heap_pop c8p7 = (some 11, c8p8) := by
  refine Prod.ext rfl ?_
  refine heap_ext rfl rfl rfl rfl ?_
  intro i
  match i with
  | 0 => rfl
  | 1 => rfl
  | 2 => rfl
  | 3 => rfl
  | 4 => rfl
  | 5 => rfl
  | 6 => rfl
  | 7 => rfl
  | 8 => rfl
  | 9 => rfl
  | 10 => rfl
  | 11 => rfl
  | 12 => rfl
  | i + 13 => rfl
theorem c8pop9 :
    binary_heap_pop c8p8 = (some 0, c8p9) := by
  refine Prod.ext rfl ?_
  refine heap_ext rfl rfl rfl rfl ?_
  intro i
  match i with
  | 0 => rfl
  | 1 => rfl
  | 2 => rfl
  | 3 => rfl
  | 4 => rfl
  | 5 => rfl
  | 6 => rfl
  | 7 => rfl
  | 8 => rfl
  | 9 => rfl
  | 10 => rfl
  | 11 => rfl
  | 12 => rfl
  | i + 13 => rfl
theorem c8pop10 :
    binary_heap_pop c8p9 = (some 5, c8p10) := by
  refine Prod.ext rfl ?_
  refine heap_ext rfl rfl rfl rfl ?_
  intro i
  match i with
  | 0 => rfl
  | 1 => rfl
  | 2 => rfl
  | 3 => rfl
  | 4 => rfl
  | 5 => rfl
  | 6 => rfl
  | 7 => rfl
  | 8 => rfl
  | 9 => rfl
  | 10 => rfl
  | 11 => rfl
  | 12 => rfl
  | i + 13 => rfl
theorem c8pop11 :
    binary_heap_pop c8p10 = (some 10, c8p11) := by
  refine Prod.ext rfl ?_
  refine heap_ext rfl rfl rfl rfl ?_
  intro i
  match i with
  | 0 => rfl
  | 1 => rfl
  | 2 => rfl
  | 3 => rfl
  | 4 => rfl
  | 5 => rfl
  | 6 => rfl
  | 7 => rfl
  | 8 => rfl
  | 9 => rfl
  | 10 => rfl
  | 11 => rfl
  | 12 => rfl
  | i + 13 => rfl
theorem c8pop12 :
    binary_heap_pop c8p11 = (some 12, c8p12) := by
  refine Prod.ext rfl ?_
  refine heap_ext rfl rfl rfl rfl ?_
  intro i
  match i with
  | 0 => rfl
  | 1 => rfl
  | 2 => rfl
  | 3 => rfl
  | 4 => rfl
  | 5 => rfl
  | 6 => rfl
  | 7 => rfl
  | 8 => rfl
  | 9 => rfl
  | 10 => rfl
  | 11 => rfl
  | 12 => rfl
  | i + 13 => rfl
theorem c8pop13 :
    binary_heap_pop c8p12 = (some 3, c8p13) := by
  refine Prod.ext rfl ?_
  refine heap_ext rfl rfl rfl rfl ?_
  intro i
  match i with
  | 0 => rfl
  | 1 => rfl
  | 2 => rfl
  | 3 => rfl
  | 4 => rfl
  | 5 => rfl
  | 6 => rfl
  | 7 => rfl
  | 8 => rfl
  | 9 => rfl
  | 10 => rfl
  | 11 => rfl
  | 12 => rfl
  | i + 13 => rfl
theorem c8drain0 : popTimes c8p13 0 = ([], c8p13) := rfl

theorem c8drain1 : popTimes c8p12 1 = ([some 3], c8p13) := by
  refine (popTimes_succ c8p12 0).trans ?_
  rw [c8pop13]
  dsimp only
  rw [c8drain0]

theorem c8drain2 : popTimes c8p11 2 = ([some 12, some 3], c8p13) := by
  refine (popTimes_succ c8p11 1).trans ?_
  rw [c8pop12]
  dsimp only
  rw [c8drain1]

theorem c8drain3 : popTimes c8p10 3 = ([some 10, some 12, some 3], c8p13) := by
  refine (popTimes_succ c8p10 2).trans ?_
  rw [c8pop11]
  dsimp only
  rw [c8drain2]

theorem c8drain4 : popTimes c8p9 4 = ([some 5, some 10, some 12, some 3], c8p13) := by
  refine (popTimes_succ c8p9 3).trans ?_
  rw [c8pop10]
  dsimp only
  rw [c8drain3]

theorem c8drain5 : popTimes c8p8 5 = ([some 0, some 5, some 10, some 12, some 3], c8p13) := by
  refine (popTimes_succ c8p8 4).trans ?_
  rw [c8pop9]
  dsimp only
  rw [c8drain4]

theorem c8drain6 : popTimes c8p7 6 = ([some 11, some 0, some 5, some 10, some 12, some 3], c8p13) := by
  refine (popTimes_succ c8p7 5).trans ?_
  rw [c8pop8]
  dsimp only
  rw [c8drain5]

theorem c8drain7 : popTimes c8p6 7 = ([some 8, some 11, some 0, some 5, some 10, some 12, some 3], c8p13) := by
  refine (popTimes_succ c8p6 6).trans ?_
  rw [c8pop7]
  dsimp only
  rw [c8drain6]

theorem c8drain8 : popTimes c8p5 8 = ([some 2, some 8, some 11, some 0, some 5, some 10, some 12, some 3], c8p13) := by
  refine (popTimes_succ c8p5 7).trans ?_
  rw [c8pop6]
  dsimp only
  rw [c8drain7]

theorem c8drain9 : popTimes c8p4 9 = ([some 9, some 2, some 8, some 11, some 0, some 5, some 10, some 12, some 3], c8p13) := by
  refine (popTimes_succ c8p4 8).trans ?_
  rw [c8pop5]
  dsimp only
  rw [c8drain8]

theorem c8drain10 : popTimes c8p3 10 = ([some 1, some 9, some 2, some 8, some 11, some 0, some 5, some 10, some 12, some 3], c8p13) := by
  refine (popTimes_succ c8p3 9).trans ?_
  rw [c8pop4]
  dsimp only
  rw [c8drain9]

theorem c8drain11 : popTimes c8p2 11 = ([some 4, some 1, some 9, some 2, some 8, some 11, some 0, some 5, some 10, some 12, some 3], c8p13) := by
  refine (popTimes_succ c8p2 10).trans ?_
  rw [c8pop3]
  dsimp only
  rw [c8drain10]

theorem c8drain12 : popTimes c8p1 12 = ([some 7, some 4, some 1, some 9, some 2, some 8, some 11, some 0, some 5, some 10, some 12, some 3], c8p13) := by
  refine (popTimes_succ c8p1 11).trans ?_
  rw [c8pop2]
  dsimp only
  rw [c8drain11]

theorem c8drain13 : popTimes c8p0 13 = ([some 6, some 7, some 4, some 1, some 9, some 2, some 8, some 11, some 0, some 5, some 10, some 12, some 3], c8p13) := by
  refine (popTimes_succ c8p0 12).trans ?_
  rw [c8pop1]
  dsimp only
  rw [c8drain12]

/-- Claim C8: inserting keys {78,24,39,3,18,99,7,15,49,31,103,65,110} in that
order into a MIN heap with the integer-difference comparator makes
`binary_heap_top` return the node with key 3 (node 3); after the caller
raises that node's stored key to 1000, `binary_heap_modify` succeeds, and
popping all thirteen entries yields the other twelve keys in ascending order
followed by 1000 last. -/
theorem c8_concrete_scenario :
    binary_heap_top c8Heap = some 3 ∧ c8Key 3 = 3 ∧
    (binary_heap_modify c8HeapRaised (some 3)).1 = BINARY_HEAP_ERR_OK ∧
    (popTimes c8HeapModified 13).1 =
      [some 6, some 7, some 4, some 1, some 9, some 2, some 8, some 11,
        some 0, some 5, some 10, some 12, some 3] ∧
    (popTimes c8HeapModified 13).1.map (fun o => o.map c8HeapRaised.key) =
      [some 7, some 15, some 18, some 24, some 31, some 39, some 49, some 65,
        some 78, some 99, some 103, some 110, some 1000] ∧
    (popTimes c8HeapModified 13).2.num_entries = 0 := by
  have hdrain : popTimes c8HeapModified 13 =
      ([some 6, some 7, some 4, some 1, some 9, some 2, some 8, some 11,
        some 0, some 5, some 10, some 12, some 3], c8p13) := by
    rw [c8mod_eq]
    exact c8drain13
  have htop : binary_heap_top c8Heap = some 3 := by
    rw [c8Heap_eq]
    rfl
  have hfst : (binary_heap_modify c8HeapRaised (some 3)).1 =
      BINARY_HEAP_ERR_OK := by
    rw [c8raised_eq]
    exact c8modify_fst
  refine ⟨htop, rfl, hfst, ?_, ?_, ?_⟩
  · rw [hdrain]
  · rw [hdrain, c8raised_eq]
    rfl
  · rw [hdrain]
    rfl

/-- Claim C9: after inserting {89,23,42,4,16,15,8,99,50,30} into an
OrderedTree with an integer comparator, `Successor(24) = 30`,
`Predecessor(24) = 23`, `MinEqualOrGreater(30) = 30`, `MaxEqualOrLess(4) = 4`,
`Successor(99) = null` and `Predecessor(4) = null`.  Settled against the
spec-modelled AVL tree, the implementation file being absent from the
sources. -/
theorem c9_ordered_tree_navigation :
    AVLTreeM.avl_tree_successor c9Tree 24 = some 30 ∧
    AVLTreeM.avl_tree_predeccessor c9Tree 24 = some 23 ∧
    AVLTreeM.avl_tree_min_equal_or_greater c9Tree 30 = some 30 ∧
    AVLTreeM.avl_tree_max_equal_or_less c9Tree 4 = some 4 ∧
    AVLTreeM.avl_tree_successor c9Tree 99 = none ∧
    AVLTreeM.avl_tree_predeccessor c9Tree 4 = none := by
  decide

/-!
Arithmetic of the path loops: consuming the bits the loop pushed navigates
from the root slot to the requested slot.
-/

theorem followSlots_zero (j p : Nat) : followSlots j p 0 = j := rfl

theorem followSlots_succ (j p k : Nat) :
    followSlots j p (k + 1) = followSlots (2 * j + p % 2) (p / 2) k := rfl

theorem followSlots_ge (k j p : Nat) : j * 2 ^ k ≤ followSlots j p k := by
  induction k generalizing j p with
  | zero => simp [followSlots]
  | succ k ih =>
    rw [followSlots_succ]
    calc j * 2 ^ (k + 1) = (2 * j) * 2 ^ k := by ring
    _ ≤ (2 * j + p % 2) * 2 ^ k := by
        have : 2 * j ≤ 2 * j + p % 2 := Nat.le_add_right _ _
        exact Nat.mul_le_mul_right _ this
    _ ≤ followSlots (2 * j + p % 2) (p / 2) k := ih _ _

theorem graft_spec (n : Nat) (h : 1 ≤ n) :
    ∀ p k j, followSlots j (pathLoop p k n).1 (pathLoop p k n).2 =
      followSlots (graft j n) p k := by
  induction n using Nat.strong_induction_on with
  | _ n ih =>
    intro p k j
    by_cases h2 : 2 ≤ n
    · rw [pathLoop_eq, if_pos h2, graft, if_pos h2]
      have hn2 : 1 ≤ n / 2 := by omega
      have hlt : n / 2 < n := by omega
      rw [ih (n / 2) hlt hn2 (2 * p + n % 2) (k + 1) j]
      rw [followSlots_succ]
      have e1 : (2 * p + n % 2) % 2 = n % 2 := by omega
      have e2 : (2 * p + n % 2) / 2 = p := by omega
      rw [e1, e2]
    · rw [pathLoop_eq, if_neg h2, graft, if_neg h2]

theorem graft_one (n : Nat) (h : 1 ≤ n) : graft 1 n = n := by
  induction n using Nat.strong_induction_on with
  | _ n ih =>
    by_cases h2 : 2 ≤ n
    · rw [graft, if_pos h2]
      have := ih (n / 2) (by omega) (by omega)
      omega
    · rw [graft, if_neg h2]
      omega

theorem pathLoop_slot (n : Nat) (h : 1 ≤ n) :
    followSlots 1 (pathLoop 0 0 n).1 (pathLoop 0 0 n).2 = n := by
  rw [graft_spec n h 0 0 1, followSlots_zero, graft_one n h]

/-!
Reading a slot's lvalue on a well-formed heap, and the two descent loops
refined to slot arithmetic.
-/

theorem Shaped.read_slot {s : binary_heap_t} {pos : Nat → Nat}
    (hs : Shaped s pos) {m : Nat} (h1 : 1 ≤ m)
    (hp : m = 1 ∨ m / 2 ≤ s.num_entries) :
    readLoc s (locOfSlot pos m) =
      if m ≤ s.num_entries then some (pos m) else none := by
  by_cases hm1 : m = 1
  · subst hm1
    have hroot : locOfSlot pos 1 = Loc.root := by rw [locOfSlot]; simp
    rw [hroot]
    simp only [readLoc, hs.min_eq]
    by_cases h0 : s.num_entries = 0
    · simp [h0]
    · rw [if_neg h0, if_pos (show 1 ≤ s.num_entries by omega)]
  · have hm2 : 2 ≤ m := by omega
    have hd : m / 2 ≤ s.num_entries := by
      rcases hp with h' | h'
      · omega
      · exact h'
    have hd1 : 1 ≤ m / 2 := by omega
    rw [locOfSlot, if_neg (by omega)]
    by_cases he : m % 2 = 0
    · rw [if_pos he]
      simp only [readLoc]
      rw [hs.left_eq (m / 2) hd1 hd]
      have : 2 * (m / 2) = m := by omega
      rw [this]
    · rw [if_neg he]
      simp only [readLoc]
      rw [hs.right_eq (m / 2) hd1 hd]
      have : 2 * (m / 2) + 1 = m := by omega
      rw [this]

theorem step_loc (pos : Nat → Nat) (j p : Nat) (hj : 1 ≤ j) :
    (if p % 2 = 1 then Loc.rightOf (pos j) else Loc.leftOf (pos j)) =
      locOfSlot pos (2 * j + p % 2) := by
  by_cases he : p % 2 = 1
  · rw [if_pos he, locOfSlot, if_neg (by omega), if_neg (by omega)]
    have e : (2 * j + p % 2) / 2 = j := by omega
    rw [e]
  · have he0 : p % 2 = 0 := by omega
    rw [if_neg he, locOfSlot, if_neg (by omega), if_pos (by omega)]
    have e : (2 * j + p % 2) / 2 = j := by omega
    rw [e]

theorem insertWalk_spec {s : binary_heap_t} {pos : Nat → Nat}
    (hs : Shaped s pos) (hn : 1 ≤ s.num_entries) :
    ∀ k p j par, 1 ≤ k → 1 ≤ j →
      followSlots j p k ≤ s.num_entries + 1 →
      insertWalk s par (locOfSlot pos j) p k =
        (locOfSlot pos (followSlots j p k / 2),
          locOfSlot pos (followSlots j p k)) := by
  intro k
  induction k with
  | zero => intro p j par hk; omega
  | succ k ih =>
    intro p j par _ hj hub
    have hge : j * 2 ^ (k + 1) ≤ followSlots j p (k + 1) := followSlots_ge _ _ _
    have hjn : j ≤ s.num_entries := by
      have h2 : 2 * j ≤ j * 2 ^ (k + 1) := by
        have : 2 ≤ 2 ^ (k + 1) := by
          have := Nat.one_le_two_pow (n := k)
          calc 2 = 2 * 1 := by omega
          _ ≤ 2 * 2 ^ k := by omega
          _ = 2 ^ (k + 1) := by rw [Nat.pow_succ]; ring
        calc 2 * j = j * 2 := by ring
        _ ≤ j * 2 ^ (k + 1) := Nat.mul_le_mul_left _ this
      omega
    rw [insertWalk]
    have hread : readLoc s (locOfSlot pos j) = some (pos j) := by
      rw [hs.read_slot hj (by omega), if_pos hjn]
    rw [hread]
    simp only []
    rw [step_loc pos j p hj]
    cases k with
    | zero =>
      rw [insertWalk]
      rw [followSlots_succ, followSlots_zero]
      have : (2 * j + p % 2) / 2 = j := by omega
      rw [this]
    | succ k' =>
      rw [ih (p / 2) (2 * j + p % 2) (locOfSlot pos j)
        (by omega) (by omega) (by rw [← followSlots_succ]; exact hub)]
      rfl

theorem deleteWalk_spec {s : binary_heap_t} {pos : Nat → Nat}
    (hs : Shaped s pos) :
    ∀ k p j, 1 ≤ j → followSlots j p k ≤ s.num_entries →
      deleteWalk s (locOfSlot pos j) p k =
        locOfSlot pos (followSlots j p k) := by
  intro k
  induction k with
  | zero => intro p j _ _; rfl
  | succ k ih =>
    intro p j hj hub
    have hge : j * 2 ^ (k + 1) ≤ followSlots j p (k + 1) := followSlots_ge _ _ _
    have hjn : j ≤ s.num_entries := by
      have h1 : j ≤ j * 2 ^ (k + 1) := Nat.le_mul_of_pos_right _ (Nat.pos_pow_of_pos _ (by omega))
      omega
    rw [deleteWalk]
    have hread : readLoc s (locOfSlot pos j) = some (pos j) := by
      rw [hs.read_slot hj (by omega), if_pos hjn]
    rw [hread]
    simp only []
    rw [step_loc pos j p hj]
    rw [ih (p / 2) (2 * j + p % 2) (by omega)
      (by rw [← followSlots_succ]; exact hub)]
    rw [followSlots_succ]

set_option maxHeartbeats 6400000

theorem swap_desc_left (s : binary_heap_t) (P C : Nat) (sib pp cl cr cp : Option Nat)
    (hP : s.nodes P = ⟨some C, sib, pp⟩)
    (hC : s.nodes C = ⟨cl, cr, cp⟩)
    (hCP : C ≠ P)
    (hPC : P ≠ C)
    (hsib : ∀ b, sib = some b → b ≠ C ∧ b ≠ P ∧ C ≠ b ∧ P ≠ b)
    (hcl : ∀ b, cl = some b → b ≠ C ∧ b ≠ P ∧ C ≠ b ∧ P ≠ b)
    (hcr : ∀ b, cr = some b → b ≠ C ∧ b ≠ P ∧ C ≠ b ∧ P ≠ b)
    (hgp : ∀ b, pp = some b → b ≠ C ∧ b ≠ P ∧ C ≠ b ∧ P ≠ b)
    (hclsib : ∀ a b, cl = some a → sib = some b → a ≠ b ∧ b ≠ a)
    (hcrsib : ∀ a b, cr = some a → sib = some b → a ≠ b ∧ b ≠ a)
    (hcrcl : ∀ a b, cr = some a → cl = some b → a ≠ b ∧ b ≠ a)
    (hgpsib : ∀ a b, pp = some a → sib = some b → a ≠ b ∧ b ≠ a)
    (hgpcl : ∀ a b, pp = some a → cl = some b → a ≠ b ∧ b ≠ a)
    (hgpcr : ∀ a b, pp = some a → cr = some b → a ≠ b ∧ b ≠ a) :
    (binary_heap_node_swap s P C).nodes C = ⟨some P, sib, pp⟩ ∧
    (binary_heap_node_swap s P C).nodes P = ⟨cl, cr, some C⟩ ∧
    (∀ b, sib = some b →
      (binary_heap_node_swap s P C).nodes b = { s.nodes b with parent := some C }) ∧
    (∀ b, cl = some b →
      (binary_heap_node_swap s P C).nodes b = { s.nodes b with parent := some P }) ∧
    (∀ b, cr = some b →
      (binary_heap_node_swap s P C).nodes b = { s.nodes b with parent := some P }) ∧
    (∀ x, x ≠ C → x ≠ P → C ≠ x → P ≠ x →
      (∀ b, sib = some b → x ≠ b ∧ b ≠ x) → (∀ b, cl = some b → x ≠ b ∧ b ≠ x) →
      (∀ b, cr = some b → x ≠ b ∧ b ≠ x) → (∀ b, pp = some b → x ≠ b ∧ b ≠ x) →
      (binary_heap_node_swap s P C).nodes x = s.nodes x) ∧
    (pp = none → (binary_heap_node_swap s P C).min = some C) ∧
    (∀ gp, pp = some gp → (binary_heap_node_swap s P C).min = s.min ∧
      (binary_heap_node_swap s P C).nodes gp =
        (if (s.nodes gp).left = some P then { s.nodes gp with left := some C }
         else { s.nodes gp with right := some C })) := by
  unfold binary_heap_node_swap
  simp only []
  rw [hP, hC]
  rcases sib with _ | sb <;> rcases cl with _ | l <;> rcases cr with _ | r <;>
    rcases pp with _ | gp <;>
  · refine ⟨?_, ?_, fun b hb => ?_, fun b hb => ?_, fun b hb => ?_,
      fun x hx1 hx2 hx3 hx4 hx5 hx6 hx7 hx8 => ?_, fun hppn => ?_,
      fun gp2 hgpe => ?_⟩
    all_goals try exact Option.noConfusion hb
    all_goals try exact Option.noConfusion hppn
    all_goals try exact Option.noConfusion hgpe
    all_goals try injection hb with hb2
    all_goals try injection hgpe with hgpe2
    all_goals try subst hb2
    all_goals try subst hgpe2
    all_goals try simp [*]
    all_goals try split
    all_goals simp [*]

theorem swap_desc_right (s : binary_heap_t) (P C : Nat) (sib pp cl cr cp : Option Nat)
    (hP : s.nodes P = ⟨sib, some C, pp⟩)
    (hC : s.nodes C = ⟨cl, cr, cp⟩)
    (hCP : C ≠ P)
    (hPC : P ≠ C)
    (hsib : ∀ b, sib = some b → b ≠ C ∧ b ≠ P ∧ C ≠ b ∧ P ≠ b)
    (hcl : ∀ b, cl = some b → b ≠ C ∧ b ≠ P ∧ C ≠ b ∧ P ≠ b)
    (hcr : ∀ b, cr = some b → b ≠ C ∧ b ≠ P ∧ C ≠ b ∧ P ≠ b)
    (hgp : ∀ b, pp = some b → b ≠ C ∧ b ≠ P ∧ C ≠ b ∧ P ≠ b)
    (hclsib : ∀ a b, cl = some a → sib = some b → a ≠ b ∧ b ≠ a)
    (hcrsib : ∀ a b, cr = some a → sib = some b → a ≠ b ∧ b ≠ a)
    (hcrcl : ∀ a b, cr = some a → cl = some b → a ≠ b ∧ b ≠ a)
    (hgpsib : ∀ a b, pp = some a → sib = some b → a ≠ b ∧ b ≠ a)
    (hgpcl : ∀ a b, pp = some a → cl = some b → a ≠ b ∧ b ≠ a)
    (hgpcr : ∀ a b, pp = some a → cr = some b → a ≠ b ∧ b ≠ a) :
    (binary_heap_node_swap s P C).nodes C = ⟨sib, some P, pp⟩ ∧
    (binary_heap_node_swap s P C).nodes P = ⟨cl, cr, some C⟩ ∧
    (∀ b, sib = some b →
      (binary_heap_node_swap s P C).nodes b = { s.nodes b with parent := some C }) ∧
    (∀ b, cl = some b →
      (binary_heap_node_swap s P C).nodes b = { s.nodes b with parent := some P }) ∧
    (∀ b, cr = some b →
      (binary_heap_node_swap s P C).nodes b = { s.nodes b with parent := some P }) ∧
    (∀ x, x ≠ C → x ≠ P → C ≠ x → P ≠ x →
      (∀ b, sib = some b → x ≠ b ∧ b ≠ x) → (∀ b, cl = some b → x ≠ b ∧ b ≠ x) →
      (∀ b, cr = some b → x ≠ b ∧ b ≠ x) → (∀ b, pp = some b → x ≠ b ∧ b ≠ x) →
      (binary_heap_node_swap s P C).nodes x = s.nodes x) ∧
    (pp = none → (binary_heap_node_swap s P C).min = some C) ∧
    (∀ gp, pp = some gp → (binary_heap_node_swap s P C).min = s.min ∧
      (binary_heap_node_swap s P C).nodes gp =
        (if (s.nodes gp).left = some P then { s.nodes gp with left := some C }
         else { s.nodes gp with right := some C })) := by
  unfold binary_heap_node_swap
  simp only []
  rw [hP, hC]
  rcases sib with _ | sb <;> rcases cl with _ | l <;> rcases cr with _ | r <;>
    rcases pp with _ | gp <;>
  · refine ⟨?_, ?_, fun b hb => ?_, fun b hb => ?_, fun b hb => ?_,
      fun x hx1 hx2 hx3 hx4 hx5 hx6 hx7 hx8 => ?_, fun hppn => ?_,
      fun gp2 hgpe => ?_⟩
    all_goals try exact Option.noConfusion hb
    all_goals try exact Option.noConfusion hppn
    all_goals try exact Option.noConfusion hgpe
    all_goals try injection hb with hb2
    all_goals try injection hgpe with hgpe2
    all_goals try subst hb2
    all_goals try subst hgpe2
    all_goals try simp [*]
    all_goals try split
    all_goals simp [*]
